import Mathlib

/-!
Verification of the shift-marketplace bot core (`src/main.py`, `src/storage.py`)
against its natural-language specification.

The embedding is shallow:

* A stored request row (the `Requests` sheet record as returned by
  `storage._find_request_sync`) is a `RequestRecord`; timestamps are integer
  minute counts (`Int`), mirroring `datetime` arithmetic where only the order
  and the `timedelta(minutes=1)` grace matter.
* The durable store is either the single record under scrutiny
  (`Option RequestRecord`, for the per-request claim handler, which reads and
  writes exactly one row while its per-id lock is held) or a list of records
  (`Store`, for the expiry sweep).
* `storage.gs_update_request_fields` and `storage.gs_list_requests` are called
  by `main.py` but are not defined anywhere in `src/`; their intended
  behaviour (partial update of named fields keyed by id / listing all request
  rows) is modelled from the spec, and the module-resolution consequences of
  their absence are modelled separately (see `storage_module_names` and the
  `*_runtime` definitions).
* Statuses are raw strings normalised with `str(...).strip().lower()`, as in
  the source.
-/

namespace Karavaevi

/-- From `main.py`: `MAX_REQUEST_SLOTS_DEFAULT = 5`. -/
def MAX_REQUEST_SLOTS_DEFAULT : Int := 5

/-- The expiry grace period, `timedelta(minutes=1)`, in minutes. -/
def GRACE_MINUTES : Int := 1

/-- Python `str.strip` whitespace set (ASCII part). -/
def pyIsSpace (c : Char) : Bool :=
  c == ' ' || c == '\t' || c == '\n' || c == '\r' || c == '\x0b' || c == '\x0c'

/-- Python `str.lower` on one character (ASCII range; statuses and area ids in
the source are ASCII tokens). -/
def pyLowerChar (c : Char) : Char :=
  if 'A' ≤ c && c ≤ 'Z' then Char.ofNat (c.toNat + 32) else c

/-- Python `str.upper` on one character (ASCII range). -/
def pyUpperChar (c : Char) : Char :=
  if 'a' ≤ c && c ≤ 'z' then Char.ofNat (c.toNat - 32) else c

/-- Python `str.strip()` on a character list. -/
def pyStripChars (l : List Char) : List Char :=
  ((l.dropWhile pyIsSpace).reverse.dropWhile pyIsSpace).reverse

/-- Python `s.strip()`. -/
def pyStrip (s : String) : String := String.mk (pyStripChars s.data)

/-- Python `s.lower()` (ASCII). -/
def pyLower (s : String) : String := String.mk (s.data.map pyLowerChar)

/-- Python `s.upper()` (ASCII). -/
def pyUpper (s : String) : String := String.mk (s.data.map pyUpperChar)

/-- `str(record.get("status") or "").strip().lower()` applied to a raw status
cell. -/
def normStatus (s : String) : String := pyLower (pyStrip s)

/-- The terminal statuses checked by `on_callback_pick` (line 1209) and
`cleanup_expired_requests` (lines 1091, 1116): `{"expired", "cancelled"}`. -/
def terminalStatuses : List String := ["expired", "cancelled"]

/-- A `Requests` row as the engine sees it after `storage._find_request_sync`:
typed fields with `none` standing for an absent, empty or unparsable cell.
`end_dt_iso` is the shift end instant in minutes (`none` = missing cell or a
`datetime.fromisoformat` failure, which the callers treat alike). -/
structure RequestRecord where
  id : Nat
  kind : String
  author_id : Int
  status : String
  max_slots : Option Int
  filled_slots : Option Int
  picked_ids : List Int
  invited_ids : List Int
  end_dt_iso : Option Int
  channel_message_id : Option Int
deriving DecidableEq, Repr

/-- `main.py` lines 1003–1010: the `max_slots` clamp of `get_request_slots`.
An absent/unparsable cell (`none`) and a nonpositive value fall back to
`MAX_REQUEST_SLOTS_DEFAULT`; larger values are capped at the default. -/
def clampMaxSlots (v : Option Int) : Int :=
  let max_slots0 : Int :=
    match v with
    | none => MAX_REQUEST_SLOTS_DEFAULT
    | some x => x
  let max_slots1 : Int := if max_slots0 ≤ 0 then MAX_REQUEST_SLOTS_DEFAULT else max_slots0
  if max_slots1 > MAX_REQUEST_SLOTS_DEFAULT then MAX_REQUEST_SLOTS_DEFAULT else max_slots1

/-- `main.py` lines 1011–1015: the `filled` clamp of `get_request_slots`,
`max(0, min(filled, max_slots))` with an absent cell counted as `0`. -/
def clampFilled (v : Option Int) (max_slots : Int) : Int :=
  let filled0 : Int :=
    match v with
    | none => 0
    | some x => x
  max 0 (min filled0 max_slots)

/-- `main.py` lines 1002–1016, `get_request_slots`: returns
`(filled, max_slots)` after both clamps. -/
def get_request_slots (r : RequestRecord) : Int × Int :=
  (clampFilled r.filled_slots (clampMaxSlots r.max_slots), clampMaxSlots r.max_slots)

/-- The claimant-id list used by `on_callback_pick` (line 1236):
`"picked_ids" if record.get("kind") == "director" else "invited_ids"`. -/
def claimIds (r : RequestRecord) : List Int :=
  if r.kind = "director" then r.picked_ids else r.invited_ids

/-- Number of claimants currently recorded on the request. -/
def claimCount (r : RequestRecord) : Nat := (claimIds r).length

/-- The capacity the engine enforces: the second component of
`get_request_slots`. -/
def capacity (r : RequestRecord) : Int := (get_request_slots r).2

/-- `now_local > end_dt + timedelta(minutes=1)` (main.py lines 1107, 1224). -/
def pastGrace (now endT : Int) : Bool := now > endT + GRACE_MINUTES

/-- Distinct exit paths of the claim handler `on_callback_pick`
(main.py lines 1200–1264). -/
inductive ClaimOutcome where
  | notFound
  | alreadyTerminal
  | selfClaim
  | expiredLazy
  | duplicateClaim
  | full
  | notFoundAfterWrite
  | fullAfterConfirm
  | accepted
deriving DecidableEq, Repr

/-- Modelled from the spec: `store.updateFields(id, fieldMap)` (spec §6) applied
to the field map built at main.py lines 1249–1254 (`storage.gs_update_request_fields`
itself is absent from `src/storage.py`; see `storage_module_names`).  Writes the
claimant list under the kind-dependent key together with `filled_slots`,
`status` and `channel_message_id`. -/
def applyClaimUpdates (r : RequestRecord) (newIds : List Int) (newFilled : Int)
    (newStatus : String) (newMsg : Option Int) : RequestRecord :=
  if r.kind = "director" then
    { r with picked_ids := newIds, filled_slots := some newFilled,
             status := newStatus, channel_message_id := newMsg }
  else
    { r with invited_ids := newIds, filled_slots := some newFilled,
             status := newStatus, channel_message_id := newMsg }

/-- main.py lines 1235–1264: the tail of the claim handler after the lazy
expiry check — duplicate check, capacity check, append, persist (spec §6
`updateFields`), and the confirm-after-write re-read. -/
def claimCore (picker : Int) (callMsg : Option Int) (r : RequestRecord) :
    Option RequestRecord × ClaimOutcome :=
  if picker ∈ claimIds r then (some r, .duplicateClaim)
  else if (get_request_slots r).1 ≥ (get_request_slots r).2 then (some r, .full)
  else
    let newIds := claimIds r ++ [picker]
    let newFilled : Int := (newIds.length : Int)
    let newStatus := if newFilled ≥ (get_request_slots r).2 then "filled" else "open"
    let newMsg := match callMsg with
      | some m => some m
      | none => r.channel_message_id
    let r' := applyClaimUpdates r newIds newFilled newStatus newMsg
    -- re-read after write (line 1256): the store now holds `r'`
    if (get_request_slots r').1 > (get_request_slots r').2 then (some r', .fullAfterConfirm)
    else (some r', .accepted)

/-- main.py lines 1200–1264, `on_callback_pick`, the critical section held
under the per-request lock, acting on the single stored row.  `now` is
`now_in_timezone()` in minutes, `picker` is `call.from_user.id`, `callMsg` is
` call.message.message_id` when present.  Returns the row as persisted (the
input row when nothing was written) and the exit path taken. -/
def on_callback_pick_store (now : Int) (picker : Int) (callMsg : Option Int)
    (st : Option RequestRecord) : Option RequestRecord × ClaimOutcome :=
  match st with
  | none => (none, .notFound)
  | some r =>
    if normStatus r.status ∈ terminalStatuses then (some r, .alreadyTerminal)
    else if r.author_id = picker then (some r, .selfClaim)
    else
      match r.end_dt_iso with
      | some endT =>
        if pastGrace now endT then
          -- `gs_update_request_fields(request_id, {"status": "expired"})`
          (some { r with status := "expired" }, .expiredLazy)
        else claimCore picker callMsg r
      | none => claimCore picker callMsg r

/-- One claim attempt: the timestamp of the attempt, the claimant id and the
callback's message id. -/
structure ClaimInput where
  now : Int
  picker : Int
  callMsg : Option Int
deriving DecidableEq, Repr

/-- A sequence of claim attempts against the one stored request, serialized by
the per-id lock. -/
def runClaims : List ClaimInput → Option RequestRecord →
    Option RequestRecord × List ClaimOutcome
  | [], st => (st, [])
  | i :: rest, st =>
    let step := on_callback_pick_store i.now i.picker i.callMsg st
    let tail := runClaims rest step.1
    (tail.1, step.2 :: tail.2)

/-- Number of accepted claims (appends to the claimant list) in a run. -/
def acceptedCount (outs : List ClaimOutcome) : Nat :=
  outs.countP (fun o => o == ClaimOutcome.accepted)

/-- The data-model invariant of spec §3 for a stored row: the persisted
`filled_slots` cell equals the claimant-list length, which does not exceed the
enforced capacity. -/
def WellFormedRequest (r : RequestRecord) : Prop :=
  r.filled_slots = some (claimCount r : Int) ∧ (claimCount r : Int) ≤ capacity r

theorem clampMaxSlots_bounds (v : Option Int) :
    1 ≤ clampMaxSlots v ∧ clampMaxSlots v ≤ 5 := by
  cases v with
  | none => decide
  | some x =>
    simp only [clampMaxSlots, MAX_REQUEST_SLOTS_DEFAULT]
    split_ifs <;> omega

theorem capacity_bounds (r : RequestRecord) : 1 ≤ capacity r ∧ capacity r ≤ 5 :=
  clampMaxSlots_bounds r.max_slots

theorem clampFilled_le (v : Option Int) (k : Int) (hk : 0 ≤ k) :
    clampFilled v k ≤ k := by
  unfold clampFilled
  cases v <;> simp <;> omega

theorem filled_of_wellFormed (r : RequestRecord) (hwf : WellFormedRequest r) :
    (get_request_slots r).1 = (claimCount r : Int) := by
  obtain ⟨h1, h2⟩ := hwf
  have hcap := capacity_bounds r
  unfold get_request_slots clampFilled
  rw [h1]
  simp only [capacity, get_request_slots] at h2 hcap
  simp
  omega

theorem applyClaimUpdates_kind (r : RequestRecord) (ids : List Int) (f : Int)
    (s : String) (m : Option Int) : (applyClaimUpdates r ids f s m).kind = r.kind := by
  unfold applyClaimUpdates; split_ifs <;> rfl

theorem applyClaimUpdates_max_slots (r : RequestRecord) (ids : List Int) (f : Int)
    (s : String) (m : Option Int) :
    (applyClaimUpdates r ids f s m).max_slots = r.max_slots := by
  unfold applyClaimUpdates; split_ifs <;> rfl

theorem applyClaimUpdates_status (r : RequestRecord) (ids : List Int) (f : Int)
    (s : String) (m : Option Int) : (applyClaimUpdates r ids f s m).status = s := by
  unfold applyClaimUpdates; split_ifs <;> rfl

theorem applyClaimUpdates_filled (r : RequestRecord) (ids : List Int) (f : Int)
    (s : String) (m : Option Int) :
    (applyClaimUpdates r ids f s m).filled_slots = some f := by
  unfold applyClaimUpdates; split_ifs <;> rfl

theorem claimIds_applyClaimUpdates (r : RequestRecord) (ids : List Int) (f : Int)
    (s : String) (m : Option Int) : claimIds (applyClaimUpdates r ids f s m) = ids := by
  unfold applyClaimUpdates claimIds
  by_cases h : r.kind = "director" <;> simp [h]

theorem capacity_applyClaimUpdates (r : RequestRecord) (ids : List Int) (f : Int)
    (s : String) (m : Option Int) : capacity (applyClaimUpdates r ids f s m) = capacity r := by
  unfold capacity get_request_slots
  rw [applyClaimUpdates_max_slots]

/-- Behaviour of the post-expiry-check tail of the claim handler on a
well-formed row: the outcome is never one of the unreachable defensive paths,
the row changes only on `accepted`, and an accepted claim appends exactly one
claimant and recomputes `filled_slots`/`status`. -/
theorem claimCore_result (p : Int) (m : Option Int) (r : RequestRecord)
    (hwf : WellFormedRequest r) :
    ∃ r' out, claimCore p m r = (some r', out) ∧ WellFormedRequest r' ∧
      capacity r' = capacity r ∧
      claimCount r' = claimCount r + (if out = ClaimOutcome.accepted then 1 else 0) ∧
      (out = ClaimOutcome.accepted →
        r'.status = (if (claimCount r' : Int) = capacity r then "filled" else "open")) := by
  unfold claimCore
  by_cases hdup : p ∈ claimIds r
  · exact ⟨r, .duplicateClaim, by simp [hdup], hwf, rfl, by simp, by simp⟩
  · by_cases hfull : (get_request_slots r).1 ≥ (get_request_slots r).2
    · exact ⟨r, .full, by simp [hdup, hfull], hwf, rfl, by simp, by simp⟩
    · have hfilled := filled_of_wellFormed r hwf
      have hcap := capacity_bounds r
      have hlt : (claimCount r : Int) < capacity r := by
        simp only [capacity]
        rw [← hfilled]
        omega
      set newIds := claimIds r ++ [p] with hIds
      set newFilled : Int := (newIds.length : Int) with hF
      set newStatus := if newFilled ≥ (get_request_slots r).2 then "filled" else "open"
        with hS
      set newMsg := (match m with
        | some m => some m
        | none => r.channel_message_id) with hM
      set r' := applyClaimUpdates r newIds newFilled newStatus newMsg with hr'
      have hcount' : claimCount r' = claimCount r + 1 := by
        simp only [hr', claimCount, claimIds_applyClaimUpdates, hIds]
        simp
      have hcapEq : capacity r' = capacity r := by
        simp only [hr', capacity_applyClaimUpdates]
      have hnewFilled : newFilled = (claimCount r : Int) + 1 := by
        simp only [hF, hIds, claimCount, List.length_append, List.length_singleton]
        push_cast
        ring
      have hwf' : WellFormedRequest r' := by
        refine ⟨?_, ?_⟩
        · simp only [hr', applyClaimUpdates_filled, hcount']
          rw [hnewFilled]
          push_cast
          ring_nf
        · rw [hcount', hcapEq]
          push_cast
          omega
      have hconfirm : ¬ (get_request_slots r').1 > (get_request_slots r').2 := by
        have := clampFilled_le r'.filled_slots (clampMaxSlots r'.max_slots)
          (by have := clampMaxSlots_bounds r'.max_slots; omega)
        simp only [get_request_slots]
        omega
      refine ⟨r', .accepted, ?_, hwf', hcapEq, by simp [hcount'], ?_⟩
      · simp only [hdup, if_false, hfull]
        simp [hconfirm]
      · intro _
        rw [hr', applyClaimUpdates_status, hS]
        have hcr2 : (claimCount (applyClaimUpdates r newIds newFilled newStatus newMsg) : Int)
            = (claimCount r : Int) + 1 := by
          simp only [claimCount, claimIds_applyClaimUpdates, hIds, List.length_append,
            List.length_singleton]
          push_cast
          ring
        rw [hcr2, hnewFilled]
        have hiff : ((claimCount r : Int) + 1 ≥ (get_request_slots r).2) ↔
            ((claimCount r : Int) + 1 = capacity r) := by
          simp only [capacity] at hlt ⊢
          omega
        by_cases he : (claimCount r : Int) + 1 = capacity r
        · rw [if_pos (hiff.mpr he), if_pos he]
        · rw [if_neg (fun h => he (hiff.mp h)), if_neg he]

/-- The claim handler preserves well-formedness and capacity, changes the
claimant count exactly on `accepted`, and on `accepted` recomputes the status
from the new count. -/
theorem claim_step_invariant (now p : Int) (m : Option Int) (r : RequestRecord)
    (hwf : WellFormedRequest r) :
    ∃ r' out, on_callback_pick_store now p m (some r) = (some r', out) ∧
      WellFormedRequest r' ∧ capacity r' = capacity r ∧
      claimCount r' = claimCount r + (if out = ClaimOutcome.accepted then 1 else 0) ∧
      (out = ClaimOutcome.accepted →
        r'.status = (if (claimCount r' : Int) = capacity r then "filled" else "open")) := by
  unfold on_callback_pick_store
  by_cases hterm : normStatus r.status ∈ terminalStatuses
  · exact ⟨r, .alreadyTerminal, by simp [hterm], hwf, rfl, by simp, by simp⟩
  · by_cases hself : r.author_id = p
    · exact ⟨r, .selfClaim, by simp [hterm, hself], hwf, rfl, by simp, by simp⟩
    · cases hend : r.end_dt_iso with
      | some endT =>
        by_cases hpast : pastGrace now endT
        · refine ⟨{ r with status := "expired" }, .expiredLazy,
            by simp [hterm, hself, hend, hpast], ?_, rfl, by simp [claimCount, claimIds], by simp⟩
          obtain ⟨h1, h2⟩ := hwf
          exact ⟨by simpa [claimCount, claimIds] using h1,
            by simpa [claimCount, claimIds, capacity, get_request_slots] using h2⟩
        · obtain ⟨r', out, heq, hrest⟩ := claimCore_result p m r hwf
          exact ⟨r', out, by simp [hterm, hself, hend, hpast, heq], hrest⟩
      | none =>
        obtain ⟨r', out, heq, hrest⟩ := claimCore_result p m r hwf
        exact ⟨r', out, by simp [hterm, hself, hend, heq], hrest⟩

/-- Iterating the claim handler from a well-formed row: the row stays
well-formed, capacity is unchanged, and the final claimant count is the
initial count plus the number of accepted claims. -/
theorem runClaims_invariant (inputs : List ClaimInput) (r : RequestRecord)
    (hwf : WellFormedRequest r) :
    ∃ rF, (runClaims inputs (some r)).1 = some rF ∧ WellFormedRequest rF ∧
      capacity rF = capacity r ∧
      claimCount rF = claimCount r + acceptedCount (runClaims inputs (some r)).2 := by
  induction inputs generalizing r with
  | nil => exact ⟨r, rfl, hwf, rfl, by simp [runClaims, acceptedCount]⟩
  | cons i rest ih =>
    obtain ⟨r', out, hstep, hwf', hcap', hcount', _⟩ :=
      claim_step_invariant i.now i.picker i.callMsg r hwf
    obtain ⟨rF, hF, hwfF, hcapF, hcountF⟩ := ih r' hwf'
    refine ⟨rF, ?_, hwfF, by rw [hcapF, hcap'], ?_⟩
    · simp only [runClaims, hstep]
      exact hF
    · simp only [runClaims, hstep, acceptedCount, List.countP_cons]
      simp only [acceptedCount] at hcountF
      rw [hcountF, hcount']
      by_cases ha : out = ClaimOutcome.accepted
      · simp [ha]
        try omega
      · simp [ha]
        try omega

/-- Claim C1: for every request with capacity `k` (the record's `max_slots`
clamped into `1..5` by `get_request_slots`) and every sequence of claim calls
(`on_callback_pick`) against that one request, the number of accepted claims
(appends to the `picked_ids`/`invited_ids` list) never exceeds `k`, and on
each accepted claim the persisted status is set to `"filled"` exactly when the
claimant count reaches `k` (otherwise it is set to `"open"`). -/
theorem c1_capacity_invariant (r : RequestRecord) (inputs : List ClaimInput)
    (hwf : WellFormedRequest r) :
    ((acceptedCount (runClaims inputs (some r)).2 : Int) ≤ capacity r) ∧
    (∀ now p m r' out, on_callback_pick_store now p m (some r) = (some r', out) →
      out = ClaimOutcome.accepted →
      claimCount r' = claimCount r + 1 ∧
      r'.status = (if (claimCount r' : Int) = capacity r then "filled" else "open")) := by
  constructor
  · obtain ⟨rF, _, ⟨_, hle⟩, hcapF, hcountF⟩ := runClaims_invariant inputs r hwf
    rw [hcapF] at hle
    rw [hcountF] at hle
    push_cast at hle
    omega
  · intro now p m r' out hstep hacc
    obtain ⟨r'', out', hstep', _, _, hcount', hstatus'⟩ :=
      claim_step_invariant now p m r hwf
    rw [hstep] at hstep'
    obtain ⟨h1, h2⟩ := Prod.mk.injEq _ _ _ _ ▸ hstep'
    cases hstep'
    subst hacc
    exact ⟨by simpa using hcount', hstatus' rfl⟩

/-- The defensive confirm-after-write check (main.py lines 1261–1264) can
never fire in the serialized model: the re-read clamped `filled` value never
exceeds the clamped capacity. -/
theorem confirm_check_false (r : RequestRecord) :
    ¬ (get_request_slots r).1 > (get_request_slots r).2 := by
  have hk := clampMaxSlots_bounds r.max_slots
  have := clampFilled_le r.filled_slots (clampMaxSlots r.max_slots) (by omega)
  simp only [get_request_slots]
  omega

/-- Shape of the post-expiry-check tail of the claim handler, with no
assumption on the row. -/
theorem claimCore_shape (p : Int) (m : Option Int) (r : RequestRecord) :
    (p ∈ claimIds r → claimCore p m r = (some r, ClaimOutcome.duplicateClaim)) ∧
    (p ∉ claimIds r → (get_request_slots r).1 ≥ (get_request_slots r).2 →
      claimCore p m r = (some r, ClaimOutcome.full)) ∧
    (p ∉ claimIds r → ¬ (get_request_slots r).1 ≥ (get_request_slots r).2 →
      ∃ r', claimCore p m r = (some r', ClaimOutcome.accepted) ∧
        claimIds r' = claimIds r ++ [p]) := by
  refine ⟨fun hdup => by simp [claimCore, hdup], fun hdup hfull => by simp [claimCore, hdup, hfull], ?_⟩
  intro hdup hfull
  simp only [claimCore, hdup, ite_false, hfull, if_false]
  rw [if_neg (confirm_check_false _)]
  exact ⟨_, rfl, claimIds_applyClaimUpdates _ _ _ _ _⟩

/-- Modelled from the claim's wording (C3): the validation priority stated by
the spec — `NotFound`, `AlreadyTerminal`, `SelfClaim`, `Expired` (shift end
plus one-minute grace passed), `DuplicateClaim`, `Full`, and only then the
append.  To be compared with `on_callback_pick_store`, which is translated
from the source. -/
def claimSpecOutcome (now p : Int) (st : Option RequestRecord) : ClaimOutcome :=
  match st with
  | none => .notFound
  | some r =>
    if normStatus r.status ∈ terminalStatuses then .alreadyTerminal
    else if r.author_id = p then .selfClaim
    else if (match r.end_dt_iso with | some e => pastGrace now e | none => false)
      then .expiredLazy
    else if p ∈ claimIds r then .duplicateClaim
    else if (get_request_slots r).1 ≥ (get_request_slots r).2 then .full
    else .accepted

/-- Claim C3: the claim handler validates under the per-id lock in exactly the
stated order and surfaces the first failure — `NotFound` if the re-read record
is absent, `AlreadyTerminal` on terminal status, `SelfClaim` if claimant =
author, `Expired` (persisting the `"expired"` status) once the shift end plus
the one-minute grace has passed, `DuplicateClaim` if the claimant is already
listed, `Full` if `filled ≥ capacity`; only then is the claimant appended. -/
theorem c3_validation_order (now p : Int) (m : Option Int) (st : Option RequestRecord) :
    ((on_callback_pick_store now p m st).2 = claimSpecOutcome now p st) ∧
    (∀ r, st = some r →
      ((on_callback_pick_store now p m st).2 = ClaimOutcome.accepted →
        ∃ r', (on_callback_pick_store now p m st).1 = some r' ∧
          claimIds r' = claimIds r ++ [p]) ∧
      ((on_callback_pick_store now p m st).2 = ClaimOutcome.expiredLazy →
        (on_callback_pick_store now p m st).1 = some { r with status := "expired" }) ∧
      ((on_callback_pick_store now p m st).2 ≠ ClaimOutcome.accepted →
        (on_callback_pick_store now p m st).2 ≠ ClaimOutcome.expiredLazy →
        (on_callback_pick_store now p m st).1 = some r)) := by
  cases st with
  | none =>
    exact ⟨rfl, fun r h => Option.noConfusion h⟩
  | some r =>
    by_cases hterm : normStatus r.status ∈ terminalStatuses
    · simp [on_callback_pick_store, claimSpecOutcome, hterm]
    · by_cases hself : r.author_id = p
      · simp [on_callback_pick_store, claimSpecOutcome, hterm, hself]
      · have hcore : ((claimCore p m r).2 =
            (if p ∈ claimIds r then ClaimOutcome.duplicateClaim
             else if (get_request_slots r).1 ≥ (get_request_slots r).2 then ClaimOutcome.full
             else ClaimOutcome.accepted)) ∧
            ((claimCore p m r).2 = ClaimOutcome.accepted →
              ∃ r', (claimCore p m r).1 = some r' ∧ claimIds r' = claimIds r ++ [p]) ∧
            ((claimCore p m r).2 ≠ ClaimOutcome.accepted →
              (claimCore p m r).1 = some r) := by
          obtain ⟨hdupC, hfullC, haccC⟩ := claimCore_shape p m r
          by_cases hdup : p ∈ claimIds r
          · simp [hdupC hdup, hdup]
          · by_cases hfull : (get_request_slots r).1 ≥ (get_request_slots r).2
            · simp [hfullC hdup hfull, hdup, hfull]
            · obtain ⟨r', hacc, hids⟩ := haccC hdup hfull
              simp [hacc, hdup, hfull]
              exact hids
        obtain ⟨hc1, hc2, hc3⟩ := hcore
        cases hend : r.end_dt_iso with
        | some endT =>
          by_cases hpast : pastGrace now endT
          · simp [on_callback_pick_store, claimSpecOutcome, hterm, hself, hend, hpast]
          · constructor
            · simpa [on_callback_pick_store, claimSpecOutcome, hterm, hself, hend, hpast]
                using hc1
            · intro r₀ h
              injection h with h
              subst h
              refine ⟨?_, ?_, ?_⟩ <;>
                simp only [on_callback_pick_store, hterm, if_false, hself, hend, hpast,
                  Bool.false_eq_true, ite_false]
              · exact hc2
              · intro hout
                exact absurd (hc1.symm.trans hout) (by split_ifs <;> simp)
              · intro hnacc _
                exact hc3 hnacc
        | none =>
          constructor
          · simpa [on_callback_pick_store, claimSpecOutcome, hterm, hself, hend]
              using hc1
          · intro r₀ h
            injection h with h
            subst h
            refine ⟨?_, ?_, ?_⟩ <;>
              simp only [on_callback_pick_store, hterm, if_false, hself, hend]
            · exact hc2
            · intro hout
              exact absurd (hc1.symm.trans hout) (by split_ifs <;> simp)
            · intro hnacc _
              exact hc3 hnacc

/-- A fresh open director request used to witness C1. -/
def c1rec : RequestRecord :=
  { id := 2, kind := "director", author_id := 100, status := "open",
    max_slots := none, filled_slots := some 0, picked_ids := [], invited_ids := [],
    end_dt_iso := none, channel_message_id := none }

/-- Six distinct claimants attempting to claim `c1rec`. -/
def c1inputs : List ClaimInput :=
  [⟨0, 1, none⟩, ⟨0, 2, none⟩, ⟨0, 3, none⟩, ⟨0, 4, none⟩, ⟨0, 5, none⟩, ⟨0, 6, none⟩]

theorem c1_capacity_invariant_witness :
    WellFormedRequest c1rec ∧
    ((acceptedCount (runClaims c1inputs (some c1rec)).2 : Int) ≤ capacity c1rec) :=
  ⟨⟨by decide, by decide⟩,
    (c1_capacity_invariant c1rec c1inputs ⟨by decide, by decide⟩).1⟩

/-- A fresh open worker request used to witness C3. -/
def c3rec : RequestRecord :=
  { id := 3, kind := "worker", author_id := 50, status := "open",
    max_slots := some 2, filled_slots := some 0, picked_ids := [], invited_ids := [],
    end_dt_iso := some 100, channel_message_id := some 11 }

theorem c3_validation_order_witness :
    (on_callback_pick_store 90 3 none (some c3rec)).2 = ClaimOutcome.accepted ∧
    (∃ r', (on_callback_pick_store 90 3 none (some c3rec)).1 = some r' ∧
      claimIds r' = claimIds c3rec ++ [3]) :=
  ⟨by decide, ((c3_validation_order 90 3 none (some c3rec)).2 c3rec rfl).1 (by decide)⟩

/-- An already-expired director request authored by user 7, used to refute C4
as stated. -/
def c4rec : RequestRecord :=
  { id := 4, kind := "director", author_id := 7, status := "expired",
    max_slots := none, filled_slots := some 0, picked_ids := [], invited_ids := [],
    end_dt_iso := none, channel_message_id := none }

/-- Claim C4 counterexample: a claim attempt by the author of their own
already-`expired` request does **not** fail with `SelfClaim`; the terminal-
status check (main.py line 1209) fires first and the outcome is
`AlreadyTerminal`. -/
theorem c4_counterexample :
    (on_callback_pick_store 0 7 none (some c4rec)).2 = ClaimOutcome.alreadyTerminal ∧
    ¬ (on_callback_pick_store 0 7 none (some c4rec)).2 = ClaimOutcome.selfClaim :=
  ⟨by decide, by decide⟩

/-- Claim C4 (amended): a claim attempt by the request's author fails with
`SelfClaim` regardless of capacity, claimant list, shift end or message id,
whenever the record is found and its status is not terminal
(`expired`/`cancelled`); if the status is terminal the outcome is
`AlreadyTerminal` instead. -/
theorem c4_self_claim (now p : Int) (m : Option Int) (r : RequestRecord)
    (hterm : normStatus r.status ∉ terminalStatuses) (hself : r.author_id = p) :
    on_callback_pick_store now p m (some r) = (some r, ClaimOutcome.selfClaim) := by
  simp [on_callback_pick_store, hterm, hself]

/-- An open director request authored by user 7, used to witness the amended
C4. -/
def c4recOpen : RequestRecord :=
  { id := 5, kind := "director", author_id := 7, status := "open",
    max_slots := none, filled_slots := some 0, picked_ids := [], invited_ids := [],
    end_dt_iso := none, channel_message_id := none }

theorem c4_self_claim_witness :
    normStatus c4recOpen.status ∉ terminalStatuses ∧ c4recOpen.author_id = 7 ∧
    on_callback_pick_store 0 7 none (some c4recOpen) = (some c4recOpen, ClaimOutcome.selfClaim) :=
  ⟨by decide, rfl, c4_self_claim 0 7 none c4recOpen (by decide) rfl⟩

/-!
### LockRegistry (main.py lines 138–139 and 928–934)

`REQUEST_LOCKS : Dict[int, asyncio.Lock]` maps request ids to lock objects.
Lock object identity is modelled by a token (a serial number): two calls
return the same lock object iff they return the same token.  The whole
lookup-or-insert runs under `REQUEST_LOCKS_MAP_LOCK` and is therefore atomic,
which the function-level model reflects. -/

/-- The process-wide lock registry: the `REQUEST_LOCKS` dict (as an insertion-
ordered association list, like a Python dict) plus a counter supplying the
identity of the next freshly created `asyncio.Lock()`. -/
structure LockRegistry where
  locks : List (Nat × Nat)
  nextToken : Nat
deriving DecidableEq, Repr

/-- `REQUEST_LOCKS.get(request_id)`. -/
def lookupLock (reg : LockRegistry) (rid : Nat) : Option Nat :=
  (reg.locks.find? (fun e => e.1 == rid)).map (fun e => e.2)

/-- main.py lines 928–934, `get_request_lock`: look the id up, creating and
registering a fresh lock when absent; return the registry and the lock. -/
def get_request_lock (reg : LockRegistry) (rid : Nat) : LockRegistry × Nat :=
  match lookupLock reg rid with
  | some tok => (reg, tok)
  | none =>
    ({ locks := reg.locks ++ [(rid, reg.nextToken)], nextToken := reg.nextToken + 1 },
      reg.nextToken)

theorem lookupLock_append (reg : LockRegistry) (rid : Nat) (e : Nat × Nat) (t : Nat)
    (h : lookupLock reg rid = some t) :
    ((reg.locks ++ [e]).find? (fun x => x.1 == rid)).map (fun x => x.2) = some t := by
  simp only [lookupLock] at h
  cases hfind : reg.locks.find? (fun x => x.1 == rid) with
  | none => rw [hfind] at h; simp at h
  | some x =>
    rw [hfind] at h
    simp only [List.find?_append, hfind]
    simpa using h

/-- Claim C10: for every request id, every call to `get_request_lock` returns
the lock registered for that id (creating it lazily on the first call), and no
registry entry is ever removed or replaced by a later call for any id — so all
claimants and the sweeper referencing one id share one lock. -/
theorem c10_lock_registry (reg : LockRegistry) (rid rid' : Nat) (t : Nat) :
    (lookupLock (get_request_lock reg rid).1 rid = some (get_request_lock reg rid).2) ∧
    (lookupLock reg rid = some t →
      lookupLock (get_request_lock reg rid').1 rid = some t ∧
      (get_request_lock reg rid).2 = t) := by
  constructor
  · unfold get_request_lock
    cases hl : lookupLock reg rid with
    | some tok => simpa using hl
    | none =>
      have hfind : reg.locks.find? (fun x => x.1 == rid) = none := by
        cases hf : reg.locks.find? (fun x => x.1 == rid) with
        | none => rfl
        | some x =>
          rw [lookupLock, hf] at hl
          simp at hl
      simp [lookupLock, List.find?_append, hfind, List.find?]
  · intro h
    constructor
    · unfold get_request_lock
      cases hl' : lookupLock reg rid' with
      | some tok => simpa using h
      | none => exact lookupLock_append reg rid _ t h
    · unfold get_request_lock
      rw [h]

theorem c10_lock_registry_witness :
    (lookupLock ({ locks := [(9, 0)], nextToken := 1 } : LockRegistry) 9 = some 0) ∧
    (lookupLock (get_request_lock { locks := [(9, 0)], nextToken := 1 } 8).1 9 = some 0 ∧
      (get_request_lock ({ locks := [(9, 0)], nextToken := 1 } : LockRegistry) 9).2 = 0) :=
  ⟨by decide, (c10_lock_registry { locks := [(9, 0)], nextToken := 1 } 9 8 0).2 (by decide)⟩

/-!
### ExpirySweeper (main.py lines 1078–1189)

`cleanup_expired_requests` lists all request rows, filters candidates by the
cached status/end-time, and per candidate: acquires the per-id lock, re-reads
the row, re-checks, deletes the channel message (best-effort), persists
`{"status": "expired", "channel_message_id": ""}` and best-effort-notifies the
author.  `storage.gs_list_requests` is absent from `src/storage.py`; listing
all rows of the sheet is modelled from the spec (§4.3 step 1).  External I/O
failures are injected through `SweepEnv`:

* `findFails rid` — `gs_find_request` raises (**not** wrapped in a `try` in
  the source; the exception propagates out of the `for` loop);
* `retractFails rid` — `bot.delete_message` raises (caught, line 1132);
* `updateFails rid` — the persist raises (caught, line 1143, `continue`);
* `notifyFails rid` — `bot.send_message` raises (caught, line 1173). -/

/-- Injected failures of the external store/chat collaborators, per request
id. -/
structure SweepEnv where
  findFails : Nat → Bool
  retractFails : Nat → Bool
  updateFails : Nat → Bool
  notifyFails : Nat → Bool

/-- An all-good environment (no external failures). -/
def noFailEnv : SweepEnv :=
  { findFails := fun _ => false, retractFails := fun _ => false,
    updateFails := fun _ => false, notifyFails := fun _ => false }

/-- Observable actions of one sweep pass, in program order. -/
inductive SweepEvent where
  | lockAcquire (rid : Nat)
  | retractPost (rid : Nat) (messageId : Int)
  | retractFailed (rid : Nat) (messageId : Int)
  | persistExpire (rid : Nat)
  | persistFailed (rid : Nat)
  | notifyAuthor (rid : Nat) (authorId : Int)
  | notifyFailed (rid : Nat) (authorId : Int)
  | lockRelease (rid : Nat)
deriving DecidableEq, Repr

/-- The `Requests` sheet as a list of rows. -/
abbrev Store := List RequestRecord

/-- Modelled from the spec: `store.find(id)` (§6); `gs_find_request` returns
the row whose id cell matches. -/
def findReq (store : Store) (rid : Nat) : Option RequestRecord :=
  store.find? (fun r => r.id == rid)

/-- Modelled from the spec: `store.updateFields(id, fieldMap)` (§6) applied to
the sheet — rewrite the row keyed by `rid` through `f`. -/
def updateStore (store : Store) (rid : Nat) (f : RequestRecord → RequestRecord) : Store :=
  store.map (fun r => if r.id == rid then f r else r)

/-- Modelled from the spec: `storage.gs_list_requests()` (spec §4.3 step 1,
"List all requests from RequestStore"); the function itself is absent from
`src/storage.py`. -/
def gs_list_requests (store : Store) : List RequestRecord := store

/-- The field map persisted by the sweeper (main.py lines 1139–1142):
`{"status": "expired", "channel_message_id": ""}`. -/
def expireUpdate (r : RequestRecord) : RequestRecord :=
  { r with status := "expired", channel_message_id := none }

/-- Result of processing one listed record (or a whole tick): the sheet, the
events emitted, and whether an uncaught exception aborted the loop. -/
structure SweepResult where
  store : Store
  events : List SweepEvent
  aborted : Bool
deriving DecidableEq, Repr

/-- main.py lines 1086–1178: the body of the sweep loop for one listed record
`record` against the current sheet.  `now` is `now_in_timezone()` in
minutes. -/
def processExpiredRecord (env : SweepEnv) (now : Int) (record : RequestRecord)
    (store : Store) : SweepResult :=
  let rid := record.id
  if rid = 0 then ⟨store, [], false⟩
  else if normStatus record.status ∈ terminalStatuses then ⟨store, [], false⟩
  else
    match record.end_dt_iso with
    | none => ⟨store, [], false⟩
    | some end_dt =>
      if now ≤ end_dt + GRACE_MINUTES then ⟨store, [], false⟩
      else
        -- lock acquired (line 1111); `async with` releases it on any exit
        if env.findFails rid then
          ⟨store, [SweepEvent.lockAcquire rid, SweepEvent.lockRelease rid], true⟩
        else
          match findReq store rid with
          | none => ⟨store, [SweepEvent.lockAcquire rid, SweepEvent.lockRelease rid], false⟩
          | some latest =>
            if normStatus latest.status ∈ terminalStatuses then
              ⟨store, [SweepEvent.lockAcquire rid, SweepEvent.lockRelease rid], false⟩
            else
              let latest_end := latest.end_dt_iso.getD end_dt
              if now ≤ latest_end + GRACE_MINUTES then
                ⟨store, [SweepEvent.lockAcquire rid, SweepEvent.lockRelease rid], false⟩
              else
                let retractEvents :=
                  match latest.channel_message_id with
                  | some msgId =>
                    [if env.retractFails rid then SweepEvent.retractFailed rid msgId
                     else SweepEvent.retractPost rid msgId]
                  | none => []
                if env.updateFails rid then
                  ⟨store,
                    [SweepEvent.lockAcquire rid] ++ retractEvents ++
                      [SweepEvent.persistFailed rid, SweepEvent.lockRelease rid],
                    false⟩
                else
                  let store' := updateStore store rid expireUpdate
                  let notifyEvents :=
                    if latest.author_id ≠ 0 then
                      [if env.notifyFails rid then SweepEvent.notifyFailed rid latest.author_id
                       else SweepEvent.notifyAuthor rid latest.author_id]
                    else []
                  ⟨store',
                    [SweepEvent.lockAcquire rid] ++ retractEvents ++
                      [SweepEvent.persistExpire rid] ++ notifyEvents ++
                      [SweepEvent.lockRelease rid],
                    false⟩

/-- The `for record in records` loop of `cleanup_expired_requests`: an
uncaught exception (a `gs_find_request` failure) aborts the remaining
records. -/
def cleanupTick (env : SweepEnv) (now : Int) :
    List RequestRecord → Store → SweepResult
  | [], store => ⟨store, [], false⟩
  | rec :: rest, store =>
    let head := processExpiredRecord env now rec store
    if head.aborted then head
    else
      let tail := cleanupTick env now rest head.store
      ⟨tail.store, head.events ++ tail.events, tail.aborted⟩

/-- main.py lines 1078–1178, `cleanup_expired_requests`, at the store
contract level: list all rows, then run the loop. -/
def cleanup_expired_requests (env : SweepEnv) (now : Int) (store : Store) : SweepResult :=
  cleanupTick env now (gs_list_requests store) store

/-- Event classifier: a successful author notification. -/
def isNotifyEvent : SweepEvent → Bool
  | .notifyAuthor _ _ => true
  | _ => false

/-- Event classifier: a retraction attempt of the public posting. -/
def isRetractEvent : SweepEvent → Bool
  | .retractPost _ _ => true
  | .retractFailed _ _ => true
  | _ => false

/-- Event classifier: the persisted `status = "expired"` update. -/
def isPersistEvent : SweepEvent → Bool
  | .persistExpire _ => true
  | _ => false

/-- Event classifier: a notification attempt at the author. -/
def isNotifyAttemptEvent : SweepEvent → Bool
  | .notifyAuthor _ _ => true
  | .notifyFailed _ _ => true
  | _ => false

/-- Event classifier: the per-request lock release. -/
def isReleaseEvent : SweepEvent → Bool
  | .lockRelease _ => true
  | _ => false

theorem findReq_updateStore (store : Store) (rid : Nat) (f : RequestRecord → RequestRecord)
    (hf : ∀ r, (f r).id = r.id) :
    findReq (updateStore store rid f) rid = (findReq store rid).map f := by
  induction store with
  | nil => rfl
  | cons a rest ih =>
    simp only [updateStore, List.map_cons, findReq, List.find?]
    by_cases ha : a.id = rid
    · have hbeq : (a.id == rid) = true := by simpa using ha
      simp only [hbeq, if_true]
      have : ((f a).id == rid) = true := by simp [hf, ha]
      simp [this, hbeq]
    · have hbeq : (a.id == rid) = false := by simpa using ha
      simp only [hbeq, if_false, Bool.false_eq_true]
      simpa [findReq, updateStore, hbeq] using ih

/-- Full reduction of one sweep pass over a live, expired-by-time candidate
whose stored row matches the listing and whose persist succeeds. -/
theorem processExpiredRecord_run (env : SweepEnv) (now : Int) (r : RequestRecord)
    (store : Store)
    (hfind : findReq store r.id = some r)
    (hid : r.id ≠ 0)
    (hterm : normStatus r.status ∉ terminalStatuses)
    (e : Int) (hend : r.end_dt_iso = some e)
    (hpast : now > e + GRACE_MINUTES)
    (hff : env.findFails r.id = false)
    (huf : env.updateFails r.id = false) :
    processExpiredRecord env now r store =
      ⟨updateStore store r.id expireUpdate,
        [SweepEvent.lockAcquire r.id] ++
          (match r.channel_message_id with
           | some msgId =>
             [if env.retractFails r.id then SweepEvent.retractFailed r.id msgId
              else SweepEvent.retractPost r.id msgId]
           | none => []) ++
          [SweepEvent.persistExpire r.id] ++
          (if r.author_id ≠ 0 then
            [if env.notifyFails r.id then SweepEvent.notifyFailed r.id r.author_id
             else SweepEvent.notifyAuthor r.id r.author_id]
           else []) ++
          [SweepEvent.lockRelease r.id],
        false⟩ := by
  have hnotle : ¬ (now ≤ e + GRACE_MINUTES) := by omega
  simp only [processExpiredRecord, hend, hff, hfind, huf]
  rw [if_neg hid, if_neg hterm, if_neg hnotle]
  simp only [Bool.false_eq_true, if_false, Option.getD_some]
  rw [if_neg hnotle, if_neg hterm]

/-- Claim C6: the expiry transition is applied exactly once and is
idempotent.  For a candidate whose shift end plus the one-minute grace has
passed and whose re-read status is not terminal, one sweep pass persists
`status = "expired"` and clears `channel_message_id`, notifying the author
once; running the sweeper again over the now-expired row changes nothing and
notifies nobody (the row is skipped at the terminal-status check). -/
theorem c6_idempotent_expiry (env : SweepEnv) (now : Int) (r : RequestRecord) (store : Store)
    (hfind : findReq store r.id = some r)
    (hid : r.id ≠ 0)
    (hterm : normStatus r.status ∉ terminalStatuses)
    (e : Int) (hend : r.end_dt_iso = some e)
    (hpast : now > e + GRACE_MINUTES)
    (hff : env.findFails r.id = false)
    (huf : env.updateFails r.id = false)
    (hnf : env.notifyFails r.id = false)
    (hauthor : r.author_id ≠ 0) :
    (processExpiredRecord env now r store).aborted = false ∧
    findReq (processExpiredRecord env now r store).store r.id = some (expireUpdate r) ∧
    (processExpiredRecord env now r store).events.countP isNotifyAttemptEvent = 1 ∧
    processExpiredRecord env now (expireUpdate r) (processExpiredRecord env now r store).store
      = ⟨(processExpiredRecord env now r store).store, [], false⟩ := by
  have hrun := processExpiredRecord_run env now r store hfind hid hterm e hend hpast hff huf
  refine ⟨by rw [hrun], ?_, ?_, ?_⟩
  · rw [hrun]
    show findReq (updateStore store r.id expireUpdate) r.id = some (expireUpdate r)
    rw [findReq_updateStore store r.id expireUpdate (fun _ => rfl), hfind]
    rfl
  · rw [hrun]
    show List.countP _ _ = 1
    rw [hnf]
    cases r.channel_message_id with
    | none =>
      simp [List.countP_append, List.countP, List.countP.go, isNotifyAttemptEvent, hauthor]
    | some msgId =>
      cases hr : env.retractFails r.id <;>
        simp [List.countP_append, List.countP, List.countP.go, isNotifyAttemptEvent, hauthor]
  · rw [hrun]
    show processExpiredRecord env now (expireUpdate r) (updateStore store r.id expireUpdate) = _
    have hterm2 : normStatus (expireUpdate r).status ∈ terminalStatuses := by
      show normStatus "expired" ∈ terminalStatuses
      decide
    have hid2 : (expireUpdate r).id = r.id := rfl
    simp only [processExpiredRecord, hid2, hterm2, if_true]
    rw [if_neg hid]

/-- An open request with a posted channel message, past its end, used to
witness C6. -/
def c6rec : RequestRecord :=
  { id := 6, kind := "director", author_id := 5, status := "open",
    max_slots := none, filled_slots := some 0, picked_ids := [], invited_ids := [],
    end_dt_iso := some 0, channel_message_id := some 10 }

theorem c6_idempotent_expiry_witness :
    (findReq [c6rec] c6rec.id = some c6rec) ∧
    ((processExpiredRecord noFailEnv 10 c6rec [c6rec]).aborted = false ∧
      findReq (processExpiredRecord noFailEnv 10 c6rec [c6rec]).store c6rec.id
        = some (expireUpdate c6rec) ∧
      (processExpiredRecord noFailEnv 10 c6rec [c6rec]).events.countP isNotifyAttemptEvent = 1 ∧
      processExpiredRecord noFailEnv 10 (expireUpdate c6rec)
          (processExpiredRecord noFailEnv 10 c6rec [c6rec]).store
        = ⟨(processExpiredRecord noFailEnv 10 c6rec [c6rec]).store, [], false⟩) :=
  ⟨by decide,
    c6_idempotent_expiry noFailEnv 10 c6rec [c6rec] (by decide) (by decide) (by decide)
      0 (by decide) (by decide) rfl rfl rfl (by decide)⟩

/-- `p`-events are required before every `q`-event: if a `q`-event occurs in
the trace, a `p`-event occurs strictly before it. -/
def eventBeforeRequired (p q : SweepEvent → Bool) (evs : List SweepEvent) : Bool :=
  match evs.findIdx? p, evs.findIdx? q with
  | some i, some j => decide (i < j)
  | none, some _ => false
  | _, none => true

/-- Modelled from the claim's wording (C7): the persisted expiry update
completes before the public posting is retracted, and both the retraction and
the author notification occur only after the per-request lock is released. -/
def sweepClaimOrdering (evs : List SweepEvent) : Bool :=
  eventBeforeRequired isPersistEvent isRetractEvent evs &&
  eventBeforeRequired isReleaseEvent isRetractEvent evs &&
  eventBeforeRequired isReleaseEvent isNotifyAttemptEvent evs

/-- An expiring request with a channel message and an author, used to refute
C7 as stated. -/
def c7rec : RequestRecord :=
  { id := 7, kind := "director", author_id := 5, status := "open",
    max_slots := none, filled_slots := some 0, picked_ids := [], invited_ids := [],
    end_dt_iso := some 0, channel_message_id := some 10 }

/-- Claim C7 counterexample: sweeping a concrete live expiring request with a
posted message emits retraction **before** the persisted update, and both the
retraction and the author notification happen strictly before the lock
release — so neither ordering stated by the claim holds. -/
theorem c7_counterexample :
    (processExpiredRecord noFailEnv 10 c7rec [c7rec]).events =
      [SweepEvent.lockAcquire 7, SweepEvent.retractPost 7 10, SweepEvent.persistExpire 7,
        SweepEvent.notifyAuthor 7 5, SweepEvent.lockRelease 7] ∧
    sweepClaimOrdering (processExpiredRecord noFailEnv 10 c7rec [c7rec]).events = false :=
  ⟨by decide, by decide⟩

/-- Claim C7 (amended): in every sweep of a live expiring request with a
posted channel message and an author, all of the work happens **inside** the
per-request lock and in this order: the retraction of the public posting is
attempted first, then the durable update setting `status = "expired"` and
clearing `channel_message_id` is persisted, then the author is notified —
i.e. the persisted update follows the retraction and precedes the
notification, and both side effects happen strictly between lock acquisition
and lock release. -/
theorem c7_sweep_ordering (env : SweepEnv) (now : Int) (r : RequestRecord) (store : Store)
    (hfind : findReq store r.id = some r)
    (hid : r.id ≠ 0)
    (hterm : normStatus r.status ∉ terminalStatuses)
    (e : Int) (hend : r.end_dt_iso = some e)
    (hpast : now > e + GRACE_MINUTES)
    (hff : env.findFails r.id = false)
    (huf : env.updateFails r.id = false)
    (hrf : env.retractFails r.id = false)
    (hnf : env.notifyFails r.id = false)
    (msgId : Int) (hmsg : r.channel_message_id = some msgId)
    (hauthor : r.author_id ≠ 0) :
    (processExpiredRecord env now r store).events =
      [SweepEvent.lockAcquire r.id, SweepEvent.retractPost r.id msgId,
        SweepEvent.persistExpire r.id, SweepEvent.notifyAuthor r.id r.author_id,
        SweepEvent.lockRelease r.id] := by
  rw [processExpiredRecord_run env now r store hfind hid hterm e hend hpast hff huf]
  simp [hmsg, hrf, hnf, hauthor]

theorem c7_sweep_ordering_witness :
    (processExpiredRecord noFailEnv 10 c7rec [c7rec]).events =
      [SweepEvent.lockAcquire c7rec.id, SweepEvent.retractPost c7rec.id 10,
        SweepEvent.persistExpire c7rec.id, SweepEvent.notifyAuthor c7rec.id c7rec.author_id,
        SweepEvent.lockRelease c7rec.id] :=
  c7_sweep_ordering noFailEnv 10 c7rec [c7rec] (by decide) (by decide) (by decide)
    0 (by decide) (by decide) rfl rfl rfl rfl 10 (by decide) (by decide)

/-- A record never aborts the sweep loop unless its re-read raises. -/
theorem processExpiredRecord_not_aborted (env : SweepEnv) (now : Int)
    (record : RequestRecord) (store : Store)
    (h : env.findFails record.id = false) :
    (processExpiredRecord env now record store).aborted = false := by
  by_cases h0 : record.id = 0
  · simp [processExpiredRecord, h0]
  · by_cases ht : normStatus record.status ∈ terminalStatuses
    · simp [processExpiredRecord, h0, ht]
    · cases hend : record.end_dt_iso with
      | none => simp [processExpiredRecord, h0, ht, hend]
      | some e =>
        by_cases hle : now ≤ e + GRACE_MINUTES
        · simp [processExpiredRecord, h0, ht, hend, hle]
        · cases hfo : findReq store record.id with
          | none => simp [processExpiredRecord, h0, ht, hend, hle, h, hfo]
          | some latest =>
            by_cases ht2 : normStatus latest.status ∈ terminalStatuses
            · simp [processExpiredRecord, h0, ht, hend, hle, h, hfo, ht2]
            · by_cases hle2 : now ≤ latest.end_dt_iso.getD e + GRACE_MINUTES
              · simp [processExpiredRecord, h0, ht, hend, hle, h, hfo, ht2, hle2]
              · cases hu : env.updateFails record.id <;>
                  simp [processExpiredRecord, h0, ht, hend, hle, h, hfo, ht2, hle2, hu]

/-- The environment refuting C8: re-reading request 1 raises. -/
def c8env : SweepEnv :=
  { findFails := fun rid => rid == 1, retractFails := fun _ => false,
    updateFails := fun _ => false, notifyFails := fun _ => false }

/-- First listed expiring request (its re-read will raise). -/
def c8rec1 : RequestRecord :=
  { id := 1, kind := "director", author_id := 5, status := "open",
    max_slots := none, filled_slots := some 0, picked_ids := [], invited_ids := [],
    end_dt_iso := some 0, channel_message_id := none }

/-- Second listed expiring request (a healthy candidate). -/
def c8rec2 : RequestRecord :=
  { id := 2, kind := "director", author_id := 6, status := "open",
    max_slots := none, filled_slots := some 0, picked_ids := [], invited_ids := [],
    end_dt_iso := some 0, channel_message_id := none }

/-- Claim C8 counterexample: an error raised while **re-reading** request 1
(`gs_find_request` is not wrapped in a `try` inside the loop) aborts the tick,
and the healthy expiring request 2 listed after it is left `"open"` — whereas
with no re-read failure the same tick expires both.  So a per-request error is
not always isolated. -/
theorem c8_counterexample :
    (cleanup_expired_requests c8env 10 [c8rec1, c8rec2]).aborted = true ∧
    findReq (cleanup_expired_requests c8env 10 [c8rec1, c8rec2]).store 2 = some c8rec2 ∧
    c8rec2.status = "open" ∧
    (cleanup_expired_requests noFailEnv 10 [c8rec1, c8rec2]).store
      = [expireUpdate c8rec1, expireUpdate c8rec2] :=
  ⟨by decide, by decide, rfl, by decide⟩

/-- Claim C8 (amended): failures while updating a request, retracting its
posting or notifying its author are caught and do not prevent the remaining
candidates of the tick from being processed; but an error while **re-reading**
a request propagates and aborts the remainder of the tick (it is caught only
one level up, in `periodic_requests_cleanup`, so the next tick still runs).
Formally: as long as no listed record's re-read raises, the tick is never
aborted, and after any non-raising head record the loop continues with the
tail. -/
theorem c8_failure_isolation (env : SweepEnv) (now : Int) (store : Store)
    (h : ∀ rec ∈ store, env.findFails rec.id = false) :
    (cleanup_expired_requests env now store).aborted = false ∧
    (∀ rec rest s, env.findFails rec.id = false →
      cleanupTick env now (rec :: rest) s =
        ⟨(cleanupTick env now rest (processExpiredRecord env now rec s).store).store,
          (processExpiredRecord env now rec s).events ++
            (cleanupTick env now rest (processExpiredRecord env now rec s).store).events,
          (cleanupTick env now rest (processExpiredRecord env now rec s).store).aborted⟩) := by
  constructor
  · unfold cleanup_expired_requests gs_list_requests
    have main : ∀ (records : List RequestRecord) (s : Store),
        (∀ rec ∈ records, env.findFails rec.id = false) →
        (cleanupTick env now records s).aborted = false := by
      intro records
      induction records with
      | nil => intro s _; rfl
      | cons rec rest ih =>
        intro s hall
        have hhead := processExpiredRecord_not_aborted env now rec s
          (hall rec (List.mem_cons_self rec rest))
        simp only [cleanupTick, hhead, Bool.false_eq_true, if_false]
        exact ih _ (fun x hx => hall x (List.mem_cons_of_mem rec hx))
    exact main store store h
  · intro rec rest s hrec
    have hhead := processExpiredRecord_not_aborted env now rec s hrec
    simp only [cleanupTick, hhead, Bool.false_eq_true, if_false]

/-- The environment witnessing the amended C8: updating request 1 fails,
notifying request 2's author fails, nothing else. -/
def c8envGood : SweepEnv :=
  { findFails := fun _ => false, retractFails := fun _ => false,
    updateFails := fun rid => rid == 1, notifyFails := fun rid => rid == 2 }

theorem c8_failure_isolation_witness :
    (∀ rec ∈ ([c8rec1, c8rec2] : Store), c8envGood.findFails rec.id = false) ∧
    (cleanup_expired_requests c8envGood 10 [c8rec1, c8rec2]).aborted = false :=
  ⟨by decide, (c8_failure_isolation c8envGood 10 [c8rec1, c8rec2] (by decide)).1⟩

/-!
### Module resolution of the storage calls (claim C2)

`main.py` calls `storage.gs_list_requests()` (line 1080) and
`storage.gs_update_request_fields(...)` (lines 1139, 1225, 1255).  Neither
name is defined anywhere in `src/storage.py`, so each of those calls raises
`AttributeError` at the attribute lookup — before any sheet I/O.  The
definitions below re-run the same control flow with storage calls resolved
against the module's actual namespace. -/

/-- Every module-level class and function defined by `src/storage.py`
(the names an attribute lookup `storage.<name>` can resolve to a callable). -/
def storage_module_names : List String :=
  ["ShopMetro", "ShopRecord", "ShopLocation", "StationSummary", "AreaSummary",
   "_decode_service_account", "_ensure_initialized", "_get_or_create_worksheet",
   "_ensure_headers", "_column_letter", "_parse_bool", "_parse_distance",
   "_canonical_area_id", "_get_area_preset", "_get_area_display_name",
   "_normalize_station_for_search", "_load_metro_areas_map", "_resolve_station_area",
   "_area_sort_key", "_load_reference_cache", "_should_refresh_cache",
   "_ensure_cache_fresh", "get_shops", "get_shop_name", "get_station_names",
   "get_station_shops", "get_shops_updated_at", "get_area_summaries",
   "get_area_summary", "get_station_summary", "search_stations",
   "_refresh_shops_cache_sync", "refresh_shops_cache", "_next_request_id",
   "_append_request_sync", "gs_append_request", "_update_request_status_sync",
   "gs_update_request_status", "_find_request_sync", "gs_find_request",
   "_ensure_user_sync", "gs_ensure_user", "_get_user_sync", "gs_get_user"]

/-- Whether `storage.<n>` resolves. -/
def storageAttrOk (n : String) : Bool := storage_module_names.contains n

/-- The call `storage.gs_update_request_fields(...)`: the attribute lookup
precedes the call, so a missing name raises `AttributeError` before any sheet
write; otherwise the already-built updated row would be stored. -/
def callUpdateRequestFields (updated : Option RequestRecord) :
    Except String (Option RequestRecord) :=
  if storageAttrOk "gs_update_request_fields" then Except.ok updated
  else Except.error "AttributeError"

/-- The call `storage.gs_list_requests()` (main.py line 1080). -/
def callListRequests (store : Store) : Except String (List RequestRecord) :=
  if storageAttrOk "gs_list_requests" then Except.ok (gs_list_requests store)
  else Except.error "AttributeError"

/-- The user-visible alerts of `on_callback_pick`. -/
inductive RuntimeAnswer where
  | expiredAlert
  | selfClaimAlert
  | duplicateAlert
  | limitAlert
  | genericFailureAlert
  | contactsSent
deriving DecidableEq, Repr

/-- main.py lines 1202–1365: the `try` body of `on_callback_pick`, with
storage calls resolved against the module namespace.  `Except.error` is an
exception escaping to the outer handler at line 1366 (the `except ValueError`
at line 1228 catches only parse failures, already folded into
`end_dt_iso = none`, never an `AttributeError`). -/
def on_callback_pick_try_body (now picker : Int) (callMsg : Option Int)
    (st : Option RequestRecord) :
    Except String (Option RequestRecord × RuntimeAnswer) :=
  match st with
  | none => Except.ok (st, .expiredAlert)
  | some r =>
    if normStatus r.status ∈ terminalStatuses then Except.ok (some r, .expiredAlert)
    else if r.author_id = picker then Except.ok (some r, .selfClaimAlert)
    else
      let afterEnd : Except String (Option (Option RequestRecord × RuntimeAnswer)) :=
        match r.end_dt_iso with
        | some endT =>
          if pastGrace now endT then
            match callUpdateRequestFields (some { r with status := "expired" }) with
            | Except.error e => Except.error e
            | Except.ok st' => Except.ok (some (st', .expiredAlert))
          else Except.ok none
        | none => Except.ok none
      match afterEnd with
      | Except.error e => Except.error e
      | Except.ok (some result) => Except.ok result
      | Except.ok none =>
        if picker ∈ claimIds r then Except.ok (some r, .duplicateAlert)
        else if (get_request_slots r).1 ≥ (get_request_slots r).2 then
          Except.ok (some r, .limitAlert)
        else
          let newIds := claimIds r ++ [picker]
          let newFilled : Int := (newIds.length : Int)
          let newStatus := if newFilled ≥ (get_request_slots r).2 then "filled" else "open"
          let newMsg := match callMsg with
            | some m => some m
            | none => r.channel_message_id
          match callUpdateRequestFields
              (some (applyClaimUpdates r newIds newFilled newStatus newMsg)) with
          | Except.error e => Except.error e
          | Except.ok st' =>
            -- re-read after write via `gs_find_request` (defined, line 1256)
            match st' with
            | none => Except.ok (none, .expiredAlert)
            | some updated =>
              if (get_request_slots updated).1 > (get_request_slots updated).2 then
                Except.ok (some updated, .limitAlert)
              else Except.ok (some updated, .contactsSent)

/-- main.py lines 1192–1369, `on_callback_pick` with the outer exception
handler: an uncaught exception is answered with the generic failure alert.
Every raising path raises at the attribute lookup, before any sheet write, so
the store is unchanged. -/
def on_callback_pick_runtime (now picker : Int) (callMsg : Option Int)
    (st : Option RequestRecord) : Option RequestRecord × RuntimeAnswer :=
  match on_callback_pick_try_body now picker callMsg st with
  | Except.ok res => res
  | Except.error _ => (st, .genericFailureAlert)

/-- main.py lines 1078–1083 with storage calls resolved against the module
namespace: a listing failure is caught, logged and the sweep returns at
once. -/
def cleanup_expired_requests_runtime (env : SweepEnv) (now : Int) (store : Store) :
    SweepResult :=
  match callListRequests store with
  | Except.error _ => ⟨store, [], false⟩
  | Except.ok records => cleanupTick env now records store

/-- storage.py lines 621–630, `_next_request_id`: scan the id column (typed
ids here, so every cell parses), returning `(max id + 1, count + 1)`. -/
def _next_request_id (ids : List Nat) : Nat × Nat :=
  (ids.foldl (fun m v => max m v) 0 + 1, ids.length + 1)

/-- storage.py lines 633–662, `gs_append_request` / `_append_request_sync`:
assign the next id and append the payload row; returns
`(request_id, row_number + 1)`. -/
def gs_append_request (store : Store) (payload : RequestRecord) : Store × (Nat × Nat) :=
  let col := store.map (fun r => r.id)
  let res := _next_request_id col
  (store ++ [{ payload with id := res.1 }], (res.1, res.2 + 1))

/-- storage.py lines 665–705, `gs_update_request_status` /
`_update_request_status_sync` — a function the module **does** define: locate
the row by id (`KeyError` if absent) and batch-write its `status`,
`updated_at` and `channel_message_id` cells (`updated_at` is not carried by
`RequestRecord`). -/
def gs_update_request_status (store : Store) (rid : Nat) (status : String)
    (channel_message_id : Option Int) : Except String Store :=
  match findReq store rid with
  | none => Except.error "KeyError"
  | some _ => Except.ok (updateStore store rid
      (fun r => { r with status := status, channel_message_id := channel_message_id }))

/-- main.py lines 1447–1455: the persist tail of `handle_post_publication`
(reached from the director flow, line 1676, and the worker flow, line 2225) —
append the draft payload, publish the channel post whose message id is
`channelMsgId`, then persist the post reference through the defined
`gs_update_request_status` (a failure there is caught at line 1458 and only
logged). -/
def handle_post_publication_persist (store : Store) (payload : RequestRecord)
    (channelMsgId : Int) : Store × Nat :=
  let ap := gs_append_request store payload
  let request_id := ap.2.1
  match gs_update_request_status ap.1 request_id "open" (some channelMsgId) with
  | Except.ok s => (s, request_id)
  | Except.error _ => (ap.1, request_id)

theorem gs_update_request_fields_missing :
    storageAttrOk "gs_update_request_fields" = false := by decide

theorem gs_list_requests_missing : storageAttrOk "gs_list_requests" = false := by decide

/-- Claim C2 (amended): the **claim handler and the expiry sweep** never
mutate a durably stored request — they persist via
`storage.gs_update_request_fields` and list via `storage.gs_list_requests`,
and `src/storage.py` defines neither name, so (a) every fully validated claim
attempt raises `AttributeError` at the persist step, is answered by the outer
handler with the generic failure alert, and leaves the store unchanged, and
(b) every sweep tick catches the listing error and returns having
transitioned no request to `"expired"`.  The publication step, by contrast,
**does** mutate the stored row: `gs_update_request_status` is defined, and
applied to a stored row it rewrites that row's `status` and
`channel_message_id`. -/
theorem c2_missing_storage_functions :
    (("gs_update_request_fields" ∉ storage_module_names ∧
      "gs_list_requests" ∉ storage_module_names) ∧
      "gs_update_request_status" ∈ storage_module_names) ∧
    (∀ now p m (r : RequestRecord), normStatus r.status ∉ terminalStatuses →
      r.author_id ≠ p →
      (∀ e, r.end_dt_iso = some e → pastGrace now e = false) →
      p ∉ claimIds r → (get_request_slots r).1 < (get_request_slots r).2 →
      on_callback_pick_runtime now p m (some r)
        = (some r, RuntimeAnswer.genericFailureAlert)) ∧
    (∀ env now store,
      cleanup_expired_requests_runtime env now store = ⟨store, [], false⟩) ∧
    (∀ (store : Store) rid status msg (r : RequestRecord), findReq store rid = some r →
      ∃ s, gs_update_request_status store rid status msg = Except.ok s ∧
        findReq s rid = some { r with status := status, channel_message_id := msg }) := by
  refine ⟨⟨⟨by decide, by decide⟩, by decide⟩, ?_, ?_, ?_⟩
  · intro now p m r hterm hself hend hdup hlt
    have hnotfull : ¬ (get_request_slots r).1 ≥ (get_request_slots r).2 := by omega
    have hupd : ∀ o, callUpdateRequestFields o = Except.error "AttributeError" := by
      intro o
      unfold callUpdateRequestFields
      rw [gs_update_request_fields_missing]
      rfl
    have hbody : on_callback_pick_try_body now p m (some r)
        = Except.error "AttributeError" := by
      cases he : r.end_dt_iso with
      | none =>
        simp only [on_callback_pick_try_body, if_neg hterm, if_neg hself, he,
          if_neg hdup, if_neg hnotfull, hupd]
      | some e =>
        have hpg := hend e he
        simp only [on_callback_pick_try_body, if_neg hterm, if_neg hself, he, hpg,
          Bool.false_eq_true, if_false, if_neg hdup, if_neg hnotfull, hupd]
    unfold on_callback_pick_runtime
    rw [hbody]
  · intro env now store
    unfold cleanup_expired_requests_runtime callListRequests
    rw [gs_list_requests_missing]
    rfl
  · intro store rid status msg r hfind
    refine ⟨updateStore store rid
      (fun x => { x with status := status, channel_message_id := msg }), ?_, ?_⟩
    · unfold gs_update_request_status
      rw [hfind]
    · rw [findReq_updateStore store rid
        (fun x => { x with status := status, channel_message_id := msg })
        (fun _ => rfl), hfind]
      rfl

/-- A fully valid claim attempt (open request, non-author claimant, free
slots, shift not yet over) used to witness C2. -/
def c2rec : RequestRecord :=
  { id := 12, kind := "director", author_id := 9, status := "open",
    max_slots := none, filled_slots := some 0, picked_ids := [], invited_ids := [],
    end_dt_iso := some 100, channel_message_id := some 44 }

theorem c2_missing_storage_functions_witness :
    normStatus c2rec.status ∉ terminalStatuses ∧
    on_callback_pick_runtime 50 3 none (some c2rec)
      = (some c2rec, RuntimeAnswer.genericFailureAlert) ∧
    (∃ s, gs_update_request_status [c2rec] c2rec.id "open" (some 77) = Except.ok s ∧
      findReq s c2rec.id = some { c2rec with status := "open", channel_message_id := some 77 }) :=
  ⟨by decide,
    (c2_missing_storage_functions.2.1 50 3 none c2rec (by decide) (by decide)
      (by intro e he; cases he; rfl) (by decide) (by decide)),
    c2_missing_storage_functions.2.2.2 [c2rec] c2rec.id "open" (some 77) c2rec (by decide)⟩

/-- The draft payload built at main.py lines 1404–1446 (status `"open"`,
default capacity, empty claimant lists, no channel reference yet). -/
def c2payload : RequestRecord :=
  { id := 0, kind := "director", author_id := 9, status := "open",
    max_slots := some 5, filled_slots := some 0, picked_ids := [], invited_ids := [],
    end_dt_iso := some 500, channel_message_id := none }

/-- Claim C2 counterexample: the claim's headline — "no operation of the
engine ever mutates a durably stored request" — is false.  The publication
persist tail (main.py lines 1447–1455) appends the draft and then mutates the
freshly stored row through the **defined** `storage.gs_update_request_status`
(storage.py lines 665–705), writing the channel post reference: at this
concrete input the durably stored row is changed. -/
theorem c2_counterexample :
    "gs_update_request_status" ∈ storage_module_names ∧
    findReq (gs_append_request [] c2payload).1 1 = some { c2payload with id := 1 } ∧
    (handle_post_publication_persist [] c2payload 77).1
      = [{ c2payload with id := 1, status := "open", channel_message_id := some 77 }] ∧
    ¬ findReq (handle_post_publication_persist [] c2payload 77).1 1
        = findReq (gs_append_request [] c2payload).1 1 :=
  ⟨by decide, by decide, by decide, by decide⟩

/-!
### Submission validation (main.py lines 937–970 and 1522–1553)

`validate_timeslot` parses its text inputs with `strptime` and checks the
draft window.  Parsed values are modelled directly: a date is its day ordinal
(an `Int`, ordered like `datetime.date`), a parsed `%H:%M` time is a
`ClockTime` (strptime guarantees `hour ≤ 23`, `minute ≤ 59`; seconds are 0),
and a parse failure is `none`.  "Now" carries its sub-minute fraction, since
`datetime.time` comparison sees seconds/microseconds. -/

/-- A `%H:%M` time as parsed by `strptime`. -/
structure ClockTime where
  hour : Nat
  minute : Nat
deriving DecidableEq, Repr

/-- Minutes since midnight. -/
def ClockTime.toMinutes (t : ClockTime) : Nat := t.hour * 60 + t.minute

/-- `now_local.time()`: hour, minute, and whether any seconds/microseconds
are present (all that its comparison against a whole-minute time can see). -/
structure NowTime where
  hour : Nat
  minute : Nat
  fracPositive : Bool
deriving DecidableEq, Repr

/-- `datetime.time` lexicographic `<` between two whole-minute times. -/
def timeLtB (a b : ClockTime) : Bool :=
  decide (a.hour < b.hour) || (decide (a.hour = b.hour) && decide (a.minute < b.minute))

/-- `from_parts < now_local.time()`: lexicographic comparison of a
whole-minute time against the current wall-clock time. -/
def timeFromLtNow (t : ClockTime) (n : NowTime) : Bool :=
  decide (t.hour < n.hour) ||
    (decide (t.hour = n.hour) &&
      (decide (t.minute < n.minute) || (decide (t.minute = n.minute) && n.fracPositive)))

/-- main.py lines 937–970, `validate_timeslot`, over parsed inputs: `none`
means the draft window is accepted, `some msg` is the rejection message.  The
checks run in source order: date format, date in past, time format,
start ≥ end, start earlier than "now" today, 15-minute steps, duration
bounds. -/
def validate_timeslot (today : Int) (nowT : NowTime) (dateParsed : Option Int)
    (fromParsed toParsed : Option ClockTime) : Option String :=
  match dateParsed with
  | none => some "Дата должна быть в формате ГГГГ-ММ-ДД."
  | some dateVal =>
    if dateVal < today then some "Дата не может быть в прошлом."
    else
      match fromParsed, toParsed with
      | some tf, some tt =>
        if timeLtB tf tt = false then some "Время начала должно быть раньше окончания."
        else if dateVal = today ∧ timeFromLtNow tf nowT = true then
          some "Время начала не может быть в прошлом."
        else if tf.minute % 15 ≠ 0 then some "Используйте шаг 15 минут."
        else if tt.minute % 15 ≠ 0 then some "Используйте шаг 15 минут."
        else
          let delta : Int := (tt.toMinutes : Int) - (tf.toMinutes : Int)
          if delta < 60 then some "Интервал должен быть не менее 1 часа."
          else if delta > 720 then some "Длительность не может превышать 12 часов."
          else none
      | _, _ => some "Время укажите в формате ЧЧ:ММ."

/-- Observable actions of the `director_time_range` message handler. -/
inductive FlowEffect where
  | backToDateStep
  | answerParseRetry
  | answerValidationError (err : String)
  | saveTimeRange
  | answerConfirmation
  | presentShopMenu
  | storeWrite
deriving DecidableEq, Repr

/-- main.py lines 1522–1553, `director_time_range`: handle the back command,
re-prompt on an unparsable range, answer the validation error and stop on a
rejected draft, otherwise save the range and continue.  No branch performs a
store write (`FlowEffect.storeWrite` never occurs). -/
def director_time_range_effects (isBack : Bool)
    (parsedRange : Option (ClockTime × ClockTime)) (dateData : Option Int)
    (today : Int) (nowT : NowTime) : List FlowEffect :=
  if isBack then [.backToDateStep]
  else
    match parsedRange with
    | none => [.answerParseRetry]
    | some (tf, tt) =>
      match validate_timeslot today nowT dateData (some tf) (some tt) with
      | some err => [.answerValidationError err]
      | none => [.saveTimeRange, .answerConfirmation, .presentShopMenu]

theorem timeLtB_iff (a b : ClockTime) (ha : a.minute < 60) (hb : b.minute < 60) :
    timeLtB a b = true ↔ a.toMinutes < b.toMinutes := by
  unfold timeLtB ClockTime.toMinutes
  simp only [Bool.or_eq_true, Bool.and_eq_true, decide_eq_true_eq]
  omega

/-- Modelled from the claim's wording (C5): the shift window is not in the
past, start < end, both start and end lie on a 15-minute boundary, and the
duration is within [1h, 12h]. -/
def timeslotSpecValid (today : Int) (nowT : NowTime) (dateVal : Int)
    (tf tt : ClockTime) : Prop :=
  (today ≤ dateVal ∧ (dateVal = today → timeFromLtNow tf nowT = false)) ∧
  tf.toMinutes < tt.toMinutes ∧
  (tf.toMinutes % 15 = 0 ∧ tt.toMinutes % 15 = 0) ∧
  (60 ≤ (tt.toMinutes : Int) - (tf.toMinutes : Int) ∧
    (tt.toMinutes : Int) - (tf.toMinutes : Int) ≤ 720)

/-- Claim C5: submission validation accepts a parsed draft window iff the
window is not in the past, start < end, both ends lie on a 15-minute
boundary, and the duration is within [1h, 12h]; and a draft that fails
validation is answered with the error message by `director_time_range`
without any store write (no branch of that handler writes to the store at
all). -/
theorem c5_submit_validation :
    (∀ today nowT dateVal tf tt, tf.minute < 60 → tt.minute < 60 →
      (validate_timeslot today nowT (some dateVal) (some tf) (some tt) = none ↔
        timeslotSpecValid today nowT dateVal tf tt)) ∧
    (∀ isBack pr dd today nowT,
      FlowEffect.storeWrite ∉ director_time_range_effects isBack pr dd today nowT ∧
      (∀ tf tt err, isBack = false → pr = some (tf, tt) →
        validate_timeslot today nowT dd (some tf) (some tt) = some err →
        director_time_range_effects isBack pr dd today nowT
          = [FlowEffect.answerValidationError err])) := by
  constructor
  · intro today nowT dateVal tf tt ha hb
    have hlt := timeLtB_iff tf tt ha hb
    have hm1 : tf.toMinutes % 15 = tf.minute % 15 := by
      unfold ClockTime.toMinutes; omega
    have hm2 : tt.toMinutes % 15 = tt.minute % 15 := by
      unfold ClockTime.toMinutes; omega
    simp only [validate_timeslot, timeslotSpecValid]
    split_ifs with h1 h2 h3 h4 h5 h6 h7
    · simp only [reduceCtorEq, false_iff]
      intro hspec
      exact absurd hspec.1.1 (by omega)
    · simp only [reduceCtorEq, false_iff]
      intro hspec
      have := hlt.mpr hspec.2.1
      rw [h2] at this
      exact absurd this (by simp)
    · simp only [reduceCtorEq, false_iff]
      intro hspec
      have := hspec.1.2 h3.1
      rw [h3.2] at this
      exact absurd this (by simp)
    · simp only [reduceCtorEq, false_iff]
      intro hspec
      exact absurd (hm1 ▸ hspec.2.2.1.1) h4
    · simp only [reduceCtorEq, false_iff]
      intro hspec
      exact absurd (hm2 ▸ hspec.2.2.1.2) h5
    · simp only [reduceCtorEq, false_iff]
      intro hspec
      exact absurd hspec.2.2.2.1 (by omega)
    · simp only [reduceCtorEq, false_iff]
      intro hspec
      exact absurd hspec.2.2.2.2 (by omega)
    · simp only [true_iff]
      refine ⟨⟨by omega, ?_⟩, ?_, ⟨by omega, by omega⟩, by omega, by omega⟩
      · intro hd
        by_contra hfrac
        exact h3 ⟨hd, by simpa using hfrac⟩
      · have : timeLtB tf tt = true := by
          cases hx : timeLtB tf tt with
          | false => exact absurd hx h2
          | true => rfl
        exact hlt.mp this
  · intro isBack pr dd today nowT
    constructor
    · cases isBack with
      | true => simp [director_time_range_effects]
      | false =>
        cases pr with
        | none => simp [director_time_range_effects]
        | some p =>
          obtain ⟨tf, tt⟩ := p
          cases hv : validate_timeslot today nowT dd (some tf) (some tt) with
          | none => simp [director_time_range_effects, hv]
          | some err => simp [director_time_range_effects, hv]
    · intro tf tt err hback hpr hval
      subst hback
      subst hpr
      simp [director_time_range_effects, hval]

/-- The rejected 10:07–10:22 draft of the claim's scenario, for tomorrow
(`today = 0`, `dateVal = 1`), with "now" at 12:00 sharp. -/
def c5now : NowTime := { hour := 12, minute := 0, fracPositive := false }

/-!
### ReferenceCache (storage.py lines 124–618)

The module-level caches and their rebuild `_load_reference_cache`.  Python
dicts become insertion-ordered association lists; `datetime.now` becomes an
integer second count; the two sheet reads (`MetroAreas`, `Shops`) are
injected through `RefEnv` as `Except` values (`error` = the `get_all_records`
call raised).  String cells are carried as already-extracted strings; an id
cell is `Option Int` (`none` = absent/unparsable), and each distance cell is
the result of `_parse_distance` (`none` = absent/unparsable/negative). -/

/-- Association-list `get`. -/
def assocGet [BEq α] (m : List (α × β)) (k : α) : Option β :=
  (m.find? (fun e => e.1 == k)).map (fun e => e.2)

/-- Python dict assignment `m[k] = v`: overwrite in place, else append. -/
def assocSet [BEq α] (m : List (α × β)) (k : α) (v : β) : List (α × β) :=
  if (m.find? (fun e => e.1 == k)).isSome then
    m.map (fun e => if e.1 == k then (k, v) else e)
  else m ++ [(k, v)]

/-- Python `m.setdefault(k, v)` restricted to its effect on the dict. -/
def assocSetdefault [BEq α] (m : List (α × β)) (k : α) (v : β) : List (α × β) :=
  if (m.find? (fun e => e.1 == k)).isSome then m else m ++ [(k, v)]

/-- Python `a or b` for strings (empty string is falsy). -/
def pyOrS (a b : String) : String := if a = "" then b else a

/-- storage.py `ShopMetro`. -/
structure ShopMetro where
  name : String
  distance_m : Int
deriving DecidableEq, Repr

/-- storage.py `ShopRecord`. -/
structure ShopRecord where
  id : Int
  name : String
  metros : List ShopMetro
  is_active : Bool
deriving DecidableEq, Repr

/-- storage.py `ShopLocation`. -/
structure ShopLocation where
  shop_id : Int
  shop_name : String
  distance_m : Int
deriving DecidableEq, Repr

/-- storage.py `StationSummary`. -/
structure StationSummary where
  name : String
  area_id : String
  area_name : String
  shop_count : Nat
deriving DecidableEq, Repr

/-- storage.py `AreaSummary`. -/
structure AreaSummary where
  area_id : String
  area_name : String
  emoji : String
  title : String
  shop_count : Nat
  stations : List StationSummary
deriving DecidableEq, Repr

def DEFAULT_AREA_ID : String := "CENTER"

def DEFAULT_AREA_NAME : String := "Центр"

def UNKNOWN_DISTANCE_FALLBACK_M : Int := 9999

def CACHE_TTL_SECONDS : Int := 15 * 60

/-- One entry of `AREA_PRESETS`. -/
structure AreaPreset where
  emoji : String
  title : String
  fallback_name : String
deriving DecidableEq, Repr

/-- storage.py lines 146–159. -/
def AREA_PRESETS : List (String × AreaPreset) :=
  [("CENTER", ⟨"🏛️", "Центр (ЦАО)", "Центр"⟩),
   ("NORTH", ⟨"⬆️", "Север (САО)", "Север"⟩),
   ("NORTH_EAST", ⟨"↗️", "Северо-Восток (СВАО)", "Северо-Восток"⟩),
   ("EAST", ⟨"➡️", "Восток (ВАО)", "Восток"⟩),
   ("SOUTH_EAST", ⟨"↘️", "Юго-Восток (ЮВАО)", "Юго-Восток"⟩),
   ("SOUTH", ⟨"⬇️", "Юг (ЮАО)", "Юг"⟩),
   ("SOUTH_WEST", ⟨"↙️", "Юго-Запад (ЮЗАО)", "Юго-Запад"⟩),
   ("WEST", ⟨"⬅️", "Запад (ЗАО)", "Запад"⟩),
   ("NORTH_WEST", ⟨"↖️", "Северо-Запад (СЗАО)", "Северо-Запад"⟩),
   ("TINAO", ⟨"🏡", "ТиНАО", "ТиНАО"⟩),
   ("MO", ⟨"🚆", "МО/Пригород", "МО/Пригород"⟩),
   ("MOSCOW_REGION", ⟨"🚆", "МО/Пригород", "МО/Пригород"⟩)]

/-- storage.py lines 161–163. -/
def AREA_CANONICAL : List (String × String) := [("MOSCOW_REGION", "MO")]

/-- storage.py lines 165–177. -/
def AREA_ORDER : List String :=
  ["CENTER", "NORTH", "NORTH_EAST", "EAST", "SOUTH_EAST", "SOUTH", "SOUTH_WEST",
   "WEST", "NORTH_WEST", "TINAO", "MO"]

/-- storage.py lines 257–261, `_parse_bool` (the source's `.lower()` is
full-unicode; the tokens compared are ASCII, see `pyLower`). -/
def _parse_bool (value : String) : Bool :=
  let text := pyLower (pyStrip (if value = "" then "1" else value))
  if text = "" then true
  else !(["0", "false", "нет", "no"].contains text)

/-- storage.py lines 299–302, `_canonical_area_id`. -/
def _canonical_area_id (area_id : String) : String :=
  if area_id = "" then DEFAULT_AREA_ID
  else (assocGet AREA_CANONICAL (pyUpper area_id)).getD (pyUpper area_id)

/-- storage.py lines 305–306, `_get_area_preset` (`none` = the `{}`
default). -/
def _get_area_preset (area_id : String) : Option AreaPreset :=
  assocGet AREA_PRESETS (_canonical_area_id area_id)

/-- storage.py lines 309–314, `_get_area_display_name`. -/
def _get_area_display_name (area_id : String) (area_name : String) : String :=
  let text := pyStrip area_name
  if text ≠ "" then text
  else pyOrS (((_get_area_preset area_id).map (fun p => p.fallback_name)).getD "")
    DEFAULT_AREA_NAME

/-- storage.py lines 317–324, `_normalize_station_for_search`. -/
def _normalize_station_for_search (value : String) : String :=
  let text := pyLower (pyStrip value)
  let text := text.replace "ё" "е"
  let text := ((((text.replace "-" "").replace "–" "").replace "—" "").replace "_" "").replace " " ""
  let text := (text.replace "(" "").replace ")" ""
  (text.replace "«" "").replace "»" ""

/-- One row of the `MetroAreas` sheet. -/
structure MetroAreaRow where
  station : String
  area_id : String
  area_name : String
deriving DecidableEq, Repr

/-- One row of the `Shops` sheet as the rebuild consumes it. -/
structure ShopRow where
  id : Option Int
  name : String
  is_active : String
  metro_1 : String
  dist_1 : Option Int
  metro_2 : String
  dist_2 : Option Int
  metro_3 : String
  dist_3 : Option Int
deriving DecidableEq, Repr

/-- The worksheet handles and the outcome of the two bulk reads. -/
structure RefEnv where
  shopsWsReady : Bool
  metroAreasWsReady : Bool
  metroAreasFetch : Except Unit (List MetroAreaRow)
  shopsFetch : Except Unit (List ShopRow)

/-- The module-level caches of storage.py (lines 130–138). -/
structure RefCacheState where
  SHOPS_CACHE : List (Int × ShopRecord)
  METRO_CACHE : List (String × List ShopLocation)
  STATIONS_CACHE : List String
  STATION_SUMMARY_CACHE : List StationSummary
  STATION_SUMMARY_BY_NAME : List (String × StationSummary)
  STATION_SEARCH_INDEX : List (String × StationSummary)
  AREA_SUMMARY_CACHE : List (String × AreaSummary)
  AREA_SUMMARY_LIST : List AreaSummary
  SHOPS_CACHE_UPDATED_AT : Option Int
deriving DecidableEq, Repr

/-- storage.py lines 327–344, `_load_metro_areas_map` (a missing worksheet or
a failed read yields the empty mapping). -/
def _load_metro_areas_map (env : RefEnv) : List (String × (String × String)) :=
  if !env.metroAreasWsReady then []
  else
    match env.metroAreasFetch with
    | Except.error _ => []
    | Except.ok records =>
      records.foldl (fun mapping row =>
        let station := pyStrip row.station
        if station = "" then mapping
        else
          let raw_area_id := pyUpper (pyStrip row.area_id)
          let area_id := if raw_area_id = "" then DEFAULT_AREA_ID else raw_area_id
          let area_name := _get_area_display_name area_id (pyStrip row.area_name)
          assocSet mapping station (area_id, area_name)) []

/-- storage.py lines 347–352, `_resolve_station_area`. -/
def _resolve_station_area (station : String)
    (area_mapping : List (String × (String × String))) : String × String :=
  let pair := (assocGet area_mapping station).getD (DEFAULT_AREA_ID, DEFAULT_AREA_NAME)
  (pair.1, _get_area_display_name pair.1 pair.2)

/-- storage.py lines 355–361, `_area_sort_key`. -/
def _area_sort_key (area_id : String) (title : String) : Nat × String :=
  let canonical := _canonical_area_id area_id
  (((AREA_ORDER.findIdx? (fun a => a == canonical)).getD AREA_ORDER.length),
    pyLower title)

/-- Accumulator of the first rebuild loop (storage.py lines 386–438). -/
structure ShopsParseAcc where
  shops : List (Int × ShopRecord)
  metro_map : List (String × List (Int × Int))
  station_area_map : List (String × (String × String))
deriving Repr

/-- In-row accumulator while handling the three metro slots. -/
structure SlotAcc where
  metros : List ShopMetro
  metro_map : List (String × List (Int × Int))
  station_area_map : List (String × (String × String))
deriving Repr

/-- storage.py lines 407–435: handle one `metro_i`/`dist_i_m` pair — resolve
the station's area, substitute the sentinel distance for an unparsable one,
extend the shop's metro list, and keep the minimum distance per
station/shop. -/
def processMetroSlot (area_mapping : List (String × (String × String))) (shop_id : Int)
    (station_raw : String) (dist : Option Int) (s : SlotAcc) : SlotAcc :=
  let station := pyStrip station_raw
  if station = "" then s
  else
    let resolved := _resolve_station_area station area_mapping
    let station_area_map := assocSet s.station_area_map station resolved
    let distance := dist.getD UNKNOWN_DISTANCE_FALLBACK_M
    let metros := s.metros ++ [⟨station, distance⟩]
    let perShop := (assocGet s.metro_map station).getD []
    let perShop' :=
      match assocGet perShop shop_id with
      | none => assocSet perShop shop_id distance
      | some current =>
        if distance < current then assocSet perShop shop_id distance else perShop
    { metros := metros, metro_map := assocSet s.metro_map station perShop',
      station_area_map := station_area_map }

/-- storage.py lines 390–438: handle one `Shops` row (`idx` is the sheet row
number, rows enumerated from 2). -/
def processShopRow (area_mapping : List (String × (String × String)))
    (acc : ShopsParseAcc) (ridx : Nat × ShopRow) : ShopsParseAcc :=
  let idx := ridx.1
  let row := ridx.2
  let name := pyStrip row.name
  if name = "" then acc
  else
    let shop_id : Int :=
      match row.id with
      | some v => v
      | none => (idx : Int) - 1
    let is_active := _parse_bool row.is_active
    let s0 : SlotAcc := ⟨[], acc.metro_map, acc.station_area_map⟩
    let s1 := processMetroSlot area_mapping shop_id row.metro_1 row.dist_1 s0
    let s2 := processMetroSlot area_mapping shop_id row.metro_2 row.dist_2 s1
    let s3 := processMetroSlot area_mapping shop_id row.metro_3 row.dist_3 s2
    let record : ShopRecord := ⟨shop_id, name, s3.metros, is_active⟩
    { shops := assocSet acc.shops shop_id record, metro_map := s3.metro_map,
      station_area_map := s3.station_area_map }

/-- Accumulator of the second rebuild loop (storage.py lines 443–473). -/
structure StationBuildAcc where
  metro_cache : List (String × List ShopLocation)
  area_station_map : List (String × List StationSummary)
  area_shop_sets : List (String × List Int)
  station_summaries : List StationSummary
  search_index : List (String × StationSummary)
  area_names : List (String × String)
deriving Repr

/-- storage.py lines 450–473: derive the per-station caches from one
`metro_map` entry. -/
def processStationEntry (shops : List (Int × ShopRecord))
    (station_area_map : List (String × (String × String)))
    (acc : StationBuildAcc) (entry : String × List (Int × Int)) : StationBuildAcc :=
  let station := entry.1
  let locations := entry.2.filterMap (fun sd =>
    match assocGet shops sd.1 with
    | some rec => if rec.is_active then some (⟨sd.1, rec.name, sd.2⟩ : ShopLocation) else none
    | none => none)
  if locations.isEmpty then acc
  else
    let locations := locations.mergeSort (fun a b =>
      decide (a.distance_m < b.distance_m) ||
        (decide (a.distance_m = b.distance_m) && decide (pyLower a.shop_name ≤ pyLower b.shop_name)))
    let resolved := _resolve_station_area station station_area_map
    let area_names := assocSetdefault acc.area_names resolved.1 resolved.2
    let summary : StationSummary := ⟨station, resolved.1, resolved.2, locations.length⟩
    let perArea := (assocGet acc.area_station_map resolved.1).getD []
    let area_station_map := assocSet acc.area_station_map resolved.1 (perArea ++ [summary])
    let shopSet := (assocGet acc.area_shop_sets resolved.1).getD []
    let shopSet := locations.foldl (fun s loc => if s.contains loc.shop_id then s else s ++ [loc.shop_id]) shopSet
    let area_shop_sets := assocSet acc.area_shop_sets resolved.1 shopSet
    { metro_cache := assocSet acc.metro_cache station locations,
      area_station_map := area_station_map,
      area_shop_sets := area_shop_sets,
      station_summaries := acc.station_summaries ++ [summary],
      search_index := acc.search_index ++ [(_normalize_station_for_search station, summary)],
      area_names := area_names }

/-- storage.py lines 479–497: build one `AreaSummary`. -/
def buildAreaSummary (area_names : List (String × String))
    (area_shop_sets : List (String × List Int))
    (entry : String × List StationSummary) : AreaSummary :=
  let area_id := entry.1
  let items := entry.2.mergeSort (fun a b =>
    decide (b.shop_count < a.shop_count) ||
      (decide (a.shop_count = b.shop_count) && decide (pyLower a.name ≤ pyLower b.name)))
  let preset := _get_area_preset area_id
  let emoji := (preset.map (fun p => p.emoji)).getD ""
  let title := pyOrS ((preset.map (fun p => p.title)).getD "")
    (pyOrS ((assocGet area_names area_id).getD "") area_id)
  let area_name := pyOrS ((assocGet area_names area_id).getD "")
    (pyOrS ((preset.map (fun p => p.fallback_name)).getD "") area_id)
  let shop_ids := (assocGet area_shop_sets area_id).getD []
  ⟨area_id, area_name, emoji, title, shop_ids.length, items⟩

/-- storage.py lines 386–512: the full rebuild from freshly fetched rows,
ending in the atomic swap of every cache field. -/
def rebuildCaches (area_mapping : List (String × (String × String)))
    (values : List ShopRow) (now : Int) : RefCacheState :=
  let parsed := (List.zip (List.range' 2 values.length) values).foldl
    (processShopRow area_mapping) ⟨[], [], []⟩
  let built := parsed.metro_map.foldl
    (processStationEntry parsed.shops parsed.station_area_map)
    ⟨[], [], [], [], [], []⟩
  let stations := (built.station_summaries.map (fun s => s.name)).mergeSort
    (fun a b => decide (a ≤ b))
  let area_list := (built.area_station_map.filter (fun e => !e.2.isEmpty)).map
    (buildAreaSummary built.area_names built.area_shop_sets)
  let area_summaries := area_list.map (fun a => (a.area_id, a))
  let area_list := area_list.mergeSort (fun a b =>
    let ka := _area_sort_key a.area_id a.title
    let kb := _area_sort_key b.area_id b.title
    decide (ka.1 < kb.1) || (decide (ka.1 = kb.1) && decide (ka.2 ≤ kb.2)))
  let station_summaries := built.station_summaries.mergeSort (fun a b =>
    decide (pyLower a.name ≤ pyLower b.name))
  let search_index := built.search_index.mergeSort (fun a b => decide (a.1 ≤ b.1))
  { SHOPS_CACHE := parsed.shops,
    METRO_CACHE := built.metro_cache,
    STATIONS_CACHE := stations,
    STATION_SUMMARY_CACHE := station_summaries,
    STATION_SUMMARY_BY_NAME := station_summaries.map (fun s => (s.name, s)),
    STATION_SEARCH_INDEX := search_index,
    AREA_SUMMARY_CACHE := area_summaries,
    AREA_SUMMARY_LIST := area_list,
    SHOPS_CACHE_UPDATED_AT := some now }

/-- storage.py lines 364–512, `_load_reference_cache`: raise if the Shops
worksheet is not initialized; a failed Shops read is caught, logged, and
leaves every cache field unchanged; a successful read rebuilds everything and
swaps. -/
def _load_reference_cache (env : RefEnv) (now : Int) (state : RefCacheState) :
    Except String RefCacheState :=
  if !env.shopsWsReady then Except.error "RuntimeError"
  else
    let area_mapping := _load_metro_areas_map env
    match env.shopsFetch with
    | Except.error _ => Except.ok state
    | Except.ok values => Except.ok (rebuildCaches area_mapping values now)

/-- storage.py lines 515–521, `_should_refresh_cache` (`now` and the stored
stamp in seconds). -/
def _should_refresh_cache (state : RefCacheState) (now : Int) : Bool :=
  match state.SHOPS_CACHE_UPDATED_AT with
  | none => true
  | some t => decide (now - t > CACHE_TTL_SECONDS)

/-- storage.py lines 524–526, `_ensure_cache_fresh`
(via `_refresh_shops_cache_sync`, line 612). -/
def _ensure_cache_fresh (env : RefEnv) (now : Int) (state : RefCacheState) :
    Except String RefCacheState :=
  if _should_refresh_cache state now then _load_reference_cache env now state
  else Except.ok state

/-- storage.py lines 529–539, `get_shops`, with `_ensure_initialized` in its
already-initialized fast path: refresh if stale, then return the active
shops of the (possibly unchanged) snapshot. -/
def get_shops (env : RefEnv) (now : Int) (state : RefCacheState) :
    Except String (RefCacheState × List (Int × ShopRecord)) :=
  match _ensure_cache_fresh env now state with
  | Except.error e => Except.error e
  | Except.ok st => Except.ok (st, st.SHOPS_CACHE.filter (fun e => e.2.is_active))

/-- Claim C9: a rebuild whose catalog fetch raises leaves the previous
snapshot fully active — `_load_reference_cache` returns with every cache
field unchanged — and a reader entering through `get_shops` never raises
because of the rebuild failure: it keeps returning the active shops of the
last successfully built snapshot, whether or not the TTL forced a refresh
attempt. -/
theorem c9_cache_failure_keeps_snapshot (env : RefEnv) (now : Int) (state : RefCacheState)
    (hws : env.shopsWsReady = true)
    (hfetch : env.shopsFetch = Except.error ()) :
    _load_reference_cache env now state = Except.ok state ∧
    get_shops env now state
      = Except.ok (state, state.SHOPS_CACHE.filter (fun e => e.2.is_active)) := by
  have h1 : _load_reference_cache env now state = Except.ok state := by
    simp only [_load_reference_cache, hws, hfetch, Bool.not_true, Bool.false_eq_true,
      if_false]
  refine ⟨h1, ?_⟩
  unfold get_shops _ensure_cache_fresh
  cases hs : _should_refresh_cache state now with
  | true => simp [h1]
  | false => simp

/-- A one-shop snapshot with a stale timestamp, plus an environment whose
Shops read fails, witnessing C9. -/
def c9state : RefCacheState :=
  { SHOPS_CACHE := [(1, ⟨1, "Лавка", [], true⟩), (2, ⟨2, "Закрытая", [], false⟩)],
    METRO_CACHE := [], STATIONS_CACHE := [], STATION_SUMMARY_CACHE := [],
    STATION_SUMMARY_BY_NAME := [], STATION_SEARCH_INDEX := [],
    AREA_SUMMARY_CACHE := [], AREA_SUMMARY_LIST := [],
    SHOPS_CACHE_UPDATED_AT := none }

def c9env : RefEnv :=
  { shopsWsReady := true, metroAreasWsReady := true,
    metroAreasFetch := Except.ok [], shopsFetch := Except.error () }

theorem c9_cache_failure_keeps_snapshot_witness :
    c9env.shopsWsReady = true ∧
    (_load_reference_cache c9env 1000 c9state = Except.ok c9state ∧
      get_shops c9env 1000 c9state
        = Except.ok (c9state, c9state.SHOPS_CACHE.filter (fun e => e.2.is_active))) :=
  ⟨rfl, c9_cache_failure_keeps_snapshot c9env 1000 c9state rfl rfl⟩

theorem c5_submit_validation_witness :
    ((10:Nat) < 60 ∧ (7:Nat) < 60 ∧ (22:Nat) < 60) ∧
    (validate_timeslot 0 c5now (some 1) (some ⟨10, 7⟩) (some ⟨10, 22⟩) = none ↔
      timeslotSpecValid 0 c5now 1 ⟨10, 7⟩ ⟨10, 22⟩) ∧
    director_time_range_effects false (some (⟨10, 7⟩, ⟨10, 22⟩)) (some 1) 0 c5now
      = [FlowEffect.answerValidationError "Используйте шаг 15 минут."] :=
  ⟨⟨by decide, by decide, by decide⟩,
    c5_submit_validation.1 0 c5now 1 ⟨10, 7⟩ ⟨10, 22⟩ (by decide) (by decide),
    (c5_submit_validation.2 false (some (⟨10, 7⟩, ⟨10, 22⟩)) (some 1) 0 c5now).2
      ⟨10, 7⟩ ⟨10, 22⟩ "Используйте шаг 15 минут." rfl rfl (by decide)⟩

end Karavaevi
